import Mathlib

/-!
# ESP32 template firmware: connectivity and update orchestration

A shallow embedding of `src/wifi_manager.cpp`, `src/ota_manager.cpp` and the
application glue of `src/main.cpp`.  Hardware and library calls (the WiFi
driver, the serial logger, `delay`, the SPIFFS store, ArduinoJson) are
collaborators: what the code sends to them is recorded as a list of
`Effect`s, and what they answer (`WiFi.status()`, `millis()`, the events
`ArduinoOTA.handle()` delivers) is an input of the embedded function.
-/

namespace Esp32

/-! ## Machine arithmetic -/

/-- Modulus of `unsigned long` and `unsigned int` on the ESP32 (32 bits). -/
def U32 : Nat := 4294967296

/-- Unsigned 32-bit subtraction `a - b`. -/
def usub (a b : Nat) : Nat := (a % U32 + U32 - b % U32) % U32

/-- Unsigned 32-bit addition `a + b`. -/
def uadd (a b : Nat) : Nat := (a + b) % U32

/-! ## Constants of `config.h` and `main.cpp` -/

def WIFI_RECONNECT_INTERVAL : Nat := 5000
def WIFI_MAX_RETRY : Int := 20
def DATA_SEND_INTERVAL : Nat := 60000
def CONFIG_FILE : String := "/config.json"

/-! ## Collaborators -/

/-- Levels of `enum LogLevel`. -/
inductive LogLevel where
  | error
  | warn
  | info
  | debug
deriving DecidableEq, Repr

/-- Requests sent to the WiFi driver. A `nullptr` password is `none`. -/
inductive NetReq where
  | disconnect
  | begin (ssid : String) (password : Option String)
deriving DecidableEq, Repr

/-- What a function does to the outside world, in program order. -/
inductive Effect where
  | log (level : LogLevel) (message : String)
  | net (req : NetReq)
  | delay (ms : Nat)
  | serialPrint (text : String)
  | sendExampleData
deriving DecidableEq, Repr

/-- Whether an effect is a `WiFi.begin` call. -/
def Effect.isBegin : Effect → Bool
  | .net (.begin _ _) => true
  | _ => false

/-- Whether an effect is a request to the WiFi driver. -/
def Effect.isNet : Effect → Bool
  | .net _ => true
  | _ => false

/-! ## `WiFiManager` -/

/-- The private fields of `class WiFiManager`. -/
structure WiFiManager where
  ssid : String
  password : String
  lastReconnectAttempt : Nat
  retryCount : Int
deriving DecidableEq, Repr

/-- The constructor `WiFiManager::WiFiManager()`. -/
def WiFiManager.new : WiFiManager :=
  { ssid := "", password := "", lastReconnectAttempt := 0, retryCount := 0 }

/-- The text `String(n)` of an integer. -/
def intText (n : Int) : String := toString n

/-- The method `WiFiManager::handleReconnect()`; `connected` is `WiFi.status() == WL_CONNECTED`
and `millis` the value `millis()` returns. -/
def WiFiManager.handleReconnect (connected : Bool) (millis : Nat) (m : WiFiManager) :
    WiFiManager × List Effect :=
  if connected then
    ({ m with retryCount := 0 }, [])
  else
    let currentMillis := millis % U32
    if WIFI_RECONNECT_INTERVAL ≤ usub currentMillis m.lastReconnectAttempt then
      let m1 := { m with lastReconnectAttempt := currentMillis, retryCount := m.retryCount + 1 }
      if m1.retryCount ≤ WIFI_MAX_RETRY then
        (m1,
          [ .log .info ("Attempting to reconnect to WiFi... (Attempt " ++ intText m1.retryCount
              ++ "/" ++ intText WIFI_MAX_RETRY ++ ")"),
            .net .disconnect,
            .delay 100,
            .net (.begin m1.ssid (some m1.password)) ])
      else
        ({ m1 with retryCount := 0 },
          [ .log .error "WiFi reconnection failed after maximum retries" ])
    else
      (m, [])

/-- The wait loop of `WiFiManager::connect`: `status k` is the answer of the
`k`-th `WiFi.status()` poll after `WiFi.begin`. Returns the final value of
`attempts` and the effects of the loop body; `fuel` is `WIFI_MAX_RETRY - attempts`. -/
def waitLoop (status : Nat → Bool) : (fuel : Nat) → (attempts : Nat) → Nat × List Effect
  | 0, attempts => (attempts, [])
  | fuel + 1, attempts =>
    if status attempts then (attempts, [])
    else
      let r := waitLoop status fuel (attempts + 1)
      (r.1, .delay 500 :: .serialPrint "." :: r.2)

/-- The method `WiFiManager::logStatus()`: its first line; the three lines that
print texts supplied by the driver (network name, address, signal strength)
are not modelled. -/
def logStatus : List Effect :=
  [ .log .info "WiFi connected!" ]

/-- The method `WiFiManager::connect(ssid, password)`; a `nullptr` argument is `none`. -/
def WiFiManager.connect (ssid password : Option String) (status : Nat → Bool)
    (m : WiFiManager) : Bool × WiFiManager × List Effect :=
  match ssid with
  | none => (false, m, [ .log .error "WiFi: SSID cannot be empty" ])
  | some s =>
    if s.length = 0 then (false, m, [ .log .error "WiFi: SSID cannot be empty" ])
    else
      let m1 := { m with ssid := s, password := password.getD "", retryCount := 0 }
      let w := waitLoop status 20 0
      -- polls 0..w.1 were made by the loop condition; the final test is the next one
      let ok := status (w.1 + 1)
      (ok, m1,
        [ .log .info ("Connecting to WiFi: " ++ s), .net .disconnect, .delay 100,
          .net (.begin s password) ] ++ w.2 ++ [ .serialPrint "\r\n" ] ++
        (if ok then logStatus else [ .log .error "WiFi connection failed" ]))

/-- The method `WiFiManager::getSSID()`. -/
def WiFiManager.getSSID (m : WiFiManager) : String := m.ssid

/-- The method `WiFiManager::disconnect()`. -/
def WiFiManager.disconnect (m : WiFiManager) : WiFiManager × List Effect :=
  (m, [ .net .disconnect, .log .info "WiFi disconnected" ])

/-- The method `WiFiManager::setCredentials(ssid, password)`. -/
def WiFiManager.setCredentials (ssid password : Option String) (m : WiFiManager) : WiFiManager :=
  { m with ssid := ssid.getD "", password := password.getD "" }

/-! ## `OTAManager` -/

/-- Unsigned 32-bit division `a / b`; `none` is the division by zero. -/
def udiv (a b : Nat) : Option Nat :=
  if b % U32 = 0 then none else some ((a % U32) / (b % U32))

/-- Command code `U_FLASH` of the update library. -/
def U_FLASH : Nat := 0

/-- Error codes of `ota_error_t`. -/
def OTA_AUTH_ERROR : Nat := 0
def OTA_BEGIN_ERROR : Nat := 1
def OTA_CONNECT_ERROR : Nat := 2
def OTA_RECEIVE_ERROR : Nat := 3
def OTA_END_ERROR : Nat := 4

/-- The field `_updating` of `class OTAManager`, together with the
`static unsigned int lastProgress` of its progress handler. -/
structure OTAManager where
  updating : Bool
  lastProgress : Nat
deriving DecidableEq, Repr

/-- The constructor `OTAManager::OTAManager()`; the static starts at 0. -/
def OTAManager.new : OTAManager := { updating := false, lastProgress := 0 }

/-- The method `OTAManager::isUpdating()`. -/
def OTAManager.isUpdating (o : OTAManager) : Bool := o.updating

/-- The handler registered with `ArduinoOTA.onStart`; `command` is `ArduinoOTA.getCommand()`. -/
def OTAManager.onStart (command : Nat) (o : OTAManager) : OTAManager × List Effect :=
  let type := if command = U_FLASH then "sketch" else "filesystem"
  ({ o with updating := true }, [ .log .info ("OTA Update Started: " ++ type) ])

/-- The handler registered with `ArduinoOTA.onEnd`. -/
def OTAManager.onEnd (o : OTAManager) : OTAManager × List Effect :=
  ({ o with updating := false }, [ .log .info "\nOTA Update Completed!" ])

/-- The handler registered with `ArduinoOTA.onProgress`; `none` when the
percentage computation `progress / (total / 100)` divides by zero. -/
def OTAManager.onProgress (progress total : Nat) (o : OTAManager) :
    Option (OTAManager × List Effect) :=
  match udiv total 100 with
  | none => none
  | some hundredth =>
    match udiv progress hundredth with
    | none => none
    | some currentProgress =>
      if uadd o.lastProgress 10 ≤ currentProgress then
        some ({ o with lastProgress := currentProgress },
          [ .log .info ("OTA Progress: " ++ toString currentProgress ++ "%") ])
      else
        some (o, [])

/-- The handler registered with `ArduinoOTA.onError`. -/
def OTAManager.onError (error : Nat) (o : OTAManager) : OTAManager × List Effect :=
  let errorMsg := "OTA Error[" ++ toString error ++ "]: "
  let errorMsg :=
    if error = OTA_AUTH_ERROR then errorMsg ++ "Auth Failed"
    else if error = OTA_BEGIN_ERROR then errorMsg ++ "Begin Failed"
    else if error = OTA_CONNECT_ERROR then errorMsg ++ "Connect Failed"
    else if error = OTA_RECEIVE_ERROR then errorMsg ++ "Receive Failed"
    else if error = OTA_END_ERROR then errorMsg ++ "End Failed"
    else errorMsg
  ({ o with updating := false }, [ .log .error errorMsg ])

/-- The events the update transport delivers to the registered handlers. -/
inductive OTAEvent where
  | onStart (command : Nat)
  | onEnd
  | onProgress (progress total : Nat)
  | onError (error : Nat)
deriving DecidableEq, Repr

/-- Runs the handler of one event. -/
def OTAManager.deliver (o : OTAManager) : OTAEvent → Option (OTAManager × List Effect)
  | .onStart command => some (o.onStart command)
  | .onEnd => some o.onEnd
  | .onProgress progress total => o.onProgress progress total
  | .onError error => some (o.onError error)

/-- The method `OTAManager::handle()`: `ArduinoOTA.handle()` runs the handlers of the
events it has, in order. -/
def OTAManager.handle (o : OTAManager) : List OTAEvent → Option (OTAManager × List Effect)
  | [] => some (o, [])
  | e :: es =>
    match o.deliver e with
    | none => none
    | some (o1, fx1) =>
      match OTAManager.handle o1 es with
      | none => none
      | some (o2, fx2) => some (o2, fx1 ++ fx2)

/-! ## The application (`main.cpp`) -/

/-- The global objects and application state of `main.cpp` that `loop()` uses. -/
structure App where
  wifiManager : WiFiManager
  otaManager : OTAManager
  isConfigured : Bool
  lastDataSend : Nat
deriving DecidableEq, Repr

/-- The globals as constructed before `setup()`. -/
def App.new : App :=
  { wifiManager := WiFiManager.new, otaManager := OTAManager.new,
    isConfigured := false, lastDataSend := 0 }

/-- What the collaborators answer during one run of `loop()`. -/
structure TickInput where
  /-- Value of `WiFi.status() == WL_CONNECTED` inside `handleReconnect`. -/
  statusReconnect : Bool
  /-- Value of `millis()` inside `handleReconnect`. -/
  millisReconnect : Nat
  /-- Value of `wifiManager.isConnected()` before `otaManager.handle()`. -/
  statusOta : Bool
  /-- The events `ArduinoOTA.handle()` delivers in this run. -/
  otaEvents : List OTAEvent
  /-- Value of `wifiManager.isConnected()` in the uplink condition. -/
  statusSend : Bool
  /-- Value of `millis()` in the uplink block. -/
  millisSend : Nat
deriving DecidableEq, Repr

/-- The uplink block of `loop()`: returns the new `lastDataSend` and the
effects; `connected` is `wifiManager.isConnected()`, `updating` is
`otaManager.isUpdating()`. -/
def uplinkCheck (connected updating : Bool) (millis lastDataSend : Nat) : Nat × List Effect :=
  if connected && !updating then
    let currentMillis := millis % U32
    if DATA_SEND_INTERVAL ≤ usub currentMillis lastDataSend then
      (currentMillis, [ .sendExampleData ])
    else
      (lastDataSend, [])
  else
    (lastDataSend, [])

/-- One run of `loop()`; `none` when a handler run by `otaManager.handle()`
divides by zero. `webServer.handle()` is empty. -/
def loop (i : TickInput) (a : App) : Option (App × List Effect) :=
  let r1 :=
    if a.isConfigured then a.wifiManager.handleReconnect i.statusReconnect i.millisReconnect
    else (a.wifiManager, [])
  let r2 := if i.statusOta then a.otaManager.handle i.otaEvents else some (a.otaManager, [])
  match r2 with
  | none => none
  | some (om, fx2) =>
    let r3 := uplinkCheck i.statusSend om.isUpdating i.millisSend a.lastDataSend
    some ({ wifiManager := r1.1, otaManager := om, isConfigured := a.isConfigured,
            lastDataSend := r3.1 },
          r1.2 ++ fx2 ++ r3.2 ++ [ .delay 10 ])

/-- Consecutive runs of `loop()`, stopping at a division by zero. -/
def runTicks (a : App) : List TickInput → Option (App × List Effect)
  | [] => some (a, [])
  | i :: is =>
    match loop i a with
    | none => none
    | some (a1, fx1) =>
      match runTicks a1 is with
      | none => none
      | some (a2, fx2) => some (a2, fx1 ++ fx2)

/-! ## The configuration store (`SPIFFS`, ArduinoJson) and `main.cpp`'s use of it -/

/-- A value of the configuration document: a string, or the null that a
`nullptr` is stored as. -/
inductive JsonValue where
  | null
  | str (s : String)
deriving DecidableEq, Repr

/-- The members of a `StaticJsonDocument` that holds an object. -/
abbrev JsonDocument := List (String × JsonValue)

/-- The assignment `doc[key] = value` of a C string: the member is replaced,
or added at the end. -/
def JsonDocument.set (doc : JsonDocument) (key : String) (value : Option String) :
    JsonDocument :=
  let v := match value with
    | none => JsonValue.null
    | some s => JsonValue.str s
  if doc.any (fun kv => kv.1 = key) then
    doc.map (fun kv => if kv.1 = key then (key, v) else kv)
  else
    doc ++ [(key, v)]

/-- The read `const char* x = doc[key]`: `nullptr` unless the member is a string. -/
def JsonDocument.getCStr (doc : JsonDocument) (key : String) : Option String :=
  match doc.lookup key with
  | some (JsonValue.str s) => some s
  | _ => none

/-- The document built by `doc["ssid"] = ssid; doc["password"] = password;`
on a fresh `StaticJsonDocument<256>`. -/
def configDocument (ssid password : Option String) : JsonDocument :=
  (JsonDocument.set (JsonDocument.set [] "ssid" ssid) "password" password)

/-- The ArduinoJson collaborator over file contents of type `Bytes`:
`deserializeJson` answers `none` for a `DeserializationError` (malformed
input, or a document that does not fit the `StaticJsonDocument<256>`). -/
structure JsonLibrary (Bytes : Type) where
  serializeJson : JsonDocument → Bytes
  deserializeJson : Bytes → Option JsonDocument

/-- The SPIFFS collaborator: whether `SPIFFS.begin` can mount it, whether it
is mounted, whether files can be opened for writing, and the files. -/
structure Spiffs (Bytes : Type) where
  mountable : Bool
  mounted : Bool
  writable : Bool
  files : String → Option Bytes

/-- The call `SPIFFS.begin(FORMAT_SPIFFS_IF_FAILED)`. -/
def Spiffs.begin {Bytes : Type} (fs : Spiffs Bytes) : Bool × Spiffs Bytes :=
  if fs.mounted then (true, fs)
  else if fs.mountable then (true, { fs with mounted := true })
  else (false, fs)

/-- The call `SPIFFS.open(path, "r")`: the content of the file, `none` for an
invalid `File`. -/
def Spiffs.openRead {Bytes : Type} (fs : Spiffs Bytes) (path : String) : Option Bytes :=
  if fs.mounted then fs.files path else none

/-- The calls `SPIFFS.open(path, "w")`, a write of `content` and `close()`:
the store afterwards, `none` when the `File` is invalid. -/
def Spiffs.write {Bytes : Type} (fs : Spiffs Bytes) (path : String) (content : Bytes) :
    Option (Spiffs Bytes) :=
  if fs.mounted && fs.writable then
    some { fs with files := fun p => if p = path then some content else fs.files p }
  else none

/-- The parse of `loadConfiguration`: `deserializeJson(doc, file)` followed by
the reads of `doc["ssid"]` and `doc["password"]`; `none` on a parse error. -/
def readIdentity {Bytes : Type} (lib : JsonLibrary Bytes) (file : Bytes) :
    Option (Option String × Option String) :=
  match lib.deserializeJson file with
  | none => none
  | some doc => some (doc.getCStr "ssid", doc.getCStr "password")

/-- The function `saveConfiguration(ssid, password)` of `main.cpp`. -/
def saveConfiguration {Bytes : Type} (lib : JsonLibrary Bytes) (ssid password : Option String)
    (a : App) (fs : Spiffs Bytes) : App × Spiffs Bytes × List Effect :=
  let doc := configDocument ssid password
  match fs.write CONFIG_FILE (lib.serializeJson doc) with
  | none => (a, fs, [ .log .error "Failed to save configuration" ])
  | some fs1 =>
    ({ a with isConfigured := true }, fs1, [ .log .info "Configuration saved to SPIFFS" ])

/-- The function `loadConfiguration()` of `main.cpp`; `status` answers the
`WiFi.status()` polls of `wifiManager.connect`. -/
def loadConfiguration {Bytes : Type} (lib : JsonLibrary Bytes) (status : Nat → Bool)
    (a : App) (fs : Spiffs Bytes) : App × Spiffs Bytes × List Effect :=
  let b := fs.begin
  if !b.1 then (a, b.2, [ .log .error "Failed to mount SPIFFS" ])
  else
    match b.2.openRead CONFIG_FILE with
    | none =>
      let doc := configDocument (some "") (some "")
      let fs2 := match b.2.write CONFIG_FILE (lib.serializeJson doc) with
        | none => b.2
        | some fs1 => fs1
      ({ a with isConfigured := false }, fs2,
        [ .log .warn "Configuration file not found. Using default AP mode." ])
    | some file =>
      match readIdentity lib file with
      | none =>
        ({ a with isConfigured := false }, b.2,
          [ .log .error "Failed to parse configuration file" ])
      | some (ssid, password) =>
        if ssid = none ∨ (ssid.getD "").length = 0 then
          ({ a with isConfigured := false }, b.2,
            [ .log .warn "No WiFi credentials found in configuration" ])
        else
          let r := a.wifiManager.connect ssid password status
          if r.1 then
            ({ a with wifiManager := r.2.1, isConfigured := true }, b.2,
              [ .log .info "Configuration loaded successfully" ] ++ r.2.2)
          else
            ({ a with wifiManager := r.2.1, isConfigured := false }, b.2,
              [ .log .info "Configuration loaded successfully" ] ++ r.2.2 ++
                [ .log .warn "Failed to connect with stored credentials" ])

/-- The store with its mount flag set: `false` is the store after a restart of
the device (the files persist, the mount does not). -/
def Spiffs.withMounted {Bytes : Type} (fs : Spiffs Bytes) (mounted : Bool) : Spiffs Bytes :=
  { mountable := fs.mountable, mounted := mounted, writable := fs.writable, files := fs.files }

/-- A call of `saveConfiguration(ssid, password)` in state `a`, followed by
`loadConfiguration()` in state `a2` on the store the save left (`remount`
false: after a restart). -/
def saveThenLoad {Bytes : Type} (lib : JsonLibrary Bytes) (status : Nat → Bool)
    (ssid password : Option String) (a a2 : App) (fs : Spiffs Bytes) (remount : Bool) :
    App × Spiffs Bytes × List Effect :=
  loadConfiguration lib status a2 ((saveConfiguration lib ssid password a fs).2.1.withMounted remount)

/-- Two calls of `loadConfiguration()`, the second on what the first left
(`remount` false: after a restart). -/
def loadTwice {Bytes : Type} (lib : JsonLibrary Bytes) (status status2 : Nat → Bool)
    (a : App) (fs : Spiffs Bytes) (remount : Bool) : App × Spiffs Bytes × List Effect :=
  loadConfiguration lib status2 (loadConfiguration lib status a fs).1
    ((loadConfiguration lib status a fs).2.1.withMounted remount)

/-! ## `WebServerManager` and the callback that `setup()` registers -/

/-- The answer `request->send(code, contentType, content)`. -/
structure HttpResponse where
  code : Nat
  contentType : String
  content : String
deriving DecidableEq, Repr

/-- The POST parameters of an `AsyncWebServerRequest`, in order. -/
structure PostRequest where
  params : List (String × String)
deriving DecidableEq, Repr

/-- The test `request->hasParam(name, true)`. -/
def PostRequest.hasParam (request : PostRequest) (name : String) : Bool :=
  (request.params.lookup name).isSome

/-- The read `request->getParam(name, true)->value()` of a parameter that is present. -/
def PostRequest.getParam (request : PostRequest) (name : String) : String :=
  (request.params.lookup name).getD ""

/-- The local `ssid` of `handleSaveConfig`: the parameter, `""` when absent. -/
def PostRequest.ssid (request : PostRequest) : String :=
  if request.hasParam "ssid" then request.getParam "ssid" else ""

/-- The local `password` of `handleSaveConfig`: the parameter, `""` when absent. -/
def PostRequest.password (request : PostRequest) : String :=
  if request.hasParam "password" then request.getParam "password" else ""

/-- A registered `std::function<void(const char*, const char*)>`: what a call
does to the application state and the store, and its effects. -/
abbrev ConfigUpdateCallback (Bytes : Type) :=
  Option String → Option String → App → Spiffs Bytes → App × Spiffs Bytes × List Effect

/-- The field `_configUpdateCallback` of `class WebServerManager` (empty until
one is registered); `handleSaveConfig` uses no other field. -/
structure WebServerManager (Bytes : Type) where
  configUpdateCallback : Option (ConfigUpdateCallback Bytes)

/-- The method `WebServerManager::onConfigUpdate(callback)`. -/
def WebServerManager.onConfigUpdate {Bytes : Type} (_w : WebServerManager Bytes)
    (callback : ConfigUpdateCallback Bytes) : WebServerManager Bytes :=
  { configUpdateCallback := some callback }

/-- The store with the file `path` holding `content`. -/
def Spiffs.withFile {Bytes : Type} (fs : Spiffs Bytes) (path : String) (content : Bytes) :
    Spiffs Bytes :=
  { mountable := fs.mountable, mounted := fs.mounted, writable := fs.writable,
    files := fun p => if p = path then some content else fs.files p }

/-- The method `WebServerManager::handleSaveConfig(request)`: the response it
sends, the application state and store afterwards, and its effects. The
capacity of the `StaticJsonDocument<256>` is not modelled. -/
def WebServerManager.handleSaveConfig {Bytes : Type} (lib : JsonLibrary Bytes)
    (w : WebServerManager Bytes) (request : PostRequest) (a : App) (fs : Spiffs Bytes) :
    HttpResponse × App × Spiffs Bytes × List Effect :=
  let ssid := request.ssid
  let password := request.password
  if ssid.length = 0 then
    ({ code := 400, contentType := "application/json",
       content := "\x7b\"error\":\"SSID is required\"\x7d" }, a, fs, [])
  else
    let doc := configDocument (some ssid) (some password)
    match fs.write CONFIG_FILE (lib.serializeJson doc) with
    | none =>
      ({ code := 500, contentType := "application/json",
         content := "\x7b\"error\":\"Failed to save config\"\x7d" }, a, fs, [])
    | some fs1 =>
      let r := match w.configUpdateCallback with
        | none => (a, fs1, [])
        | some callback => callback (some ssid) (some password) a fs1
      ({ code := 200, contentType := "application/json",
         content :=
           "\x7b\"success\":true,\"message\":\"Configuration saved. Device will reconnect.\"\x7d" },
        r.1, r.2.1, [ .log .info "Configuration saved" ] ++ r.2.2)

/-- The callback that `setup()` registers with `webServer.onConfigUpdate`;
`status` answers the `WiFi.status()` polls of `wifiManager.connect`. -/
def setupConfigCallback {Bytes : Type} (lib : JsonLibrary Bytes) (status : Nat → Bool) :
    ConfigUpdateCallback Bytes :=
  fun ssid password a fs =>
    let s := saveConfiguration lib ssid password a fs
    let c := s.1.wifiManager.connect ssid password status
    ({ s.1 with wifiManager := c.2.1 }, s.2.1,
      [ .log .info "Configuration updated via web interface" ] ++ s.2.2 ++ [ .delay 1000 ] ++
        c.2.2)

/-! ## Histories -/

/-- What an event does to the gate: `true` on start, `false` on end or error,
nothing on progress. -/
def OTAEvent.gate : OTAEvent → Option Bool
  | .onStart _ => some true
  | .onEnd => some false
  | .onProgress _ _ => none
  | .onError _ => some false

/-- The gate after a history of events, folding `OTAEvent.gate` from the left. -/
def gateAfter (busy : Bool) : List OTAEvent → Bool
  | [] => busy
  | e :: es => gateAfter (e.gate.getD busy) es

/-- Whether an update is in progress after a history of delivered events: the
last start/end/error event of the history is an `onStart`; `busy` when the
history has no such event. -/
def inProgress (busy : Bool) (history : List OTAEvent) : Bool :=
  ((history.filterMap OTAEvent.gate).getLast?).getD busy

/-- The events handed to the handlers by a sequence of runs of `loop()`. -/
def delivered : List TickInput → List OTAEvent
  | [] => []
  | i :: is => (if i.statusOta then i.otaEvents else []) ++ delivered is

/-- One recorded call of `handleReconnect`: the clock it read, the manager
after it and what it did. -/
structure ReconnectCall where
  clock : Nat
  after : WiFiManager
  effects : List Effect
deriving DecidableEq, Repr

/-- Consecutive calls of `handleReconnect`, each with the connectivity and the
clock value it observes. -/
def reconnectTrace (m : WiFiManager) : List (Bool × Nat) → List ReconnectCall
  | [] => []
  | (connected, t) :: rest =>
    let r := m.handleReconnect connected t
    { clock := t, after := r.1, effects := r.2 } :: reconnectTrace r.1 rest

/-- Calls during which the network never reports connected. -/
def notConnected (ts : List Nat) : List (Bool × Nat) := ts.map (fun t => (false, t))

/-- A call that passed the interval test: it did something (a reconnect
attempt or the exhausted branch). -/
def ReconnectCall.eligible (c : ReconnectCall) : Bool := !c.effects.isEmpty

/-- A call that issued a connect request (`WiFi.begin`). -/
def ReconnectCall.isAttempt (c : ReconnectCall) : Bool := c.effects.any Effect.isBegin

/-- What the exhausted branch of `handleReconnect` does. -/
def exhaustedEffects : List Effect :=
  [ .log .error "WiFi reconnection failed after maximum retries" ]

/-- The spacing relation between two recorded calls: the second is at least
one reconnect interval after the first in unsigned 32-bit arithmetic. -/
def spaced (a b : ReconnectCall) : Prop := WIFI_RECONNECT_INTERVAL ≤ usub b.clock a.clock

/-- The clock values at which a sequence of `handleReconnect` calls issued its
connect requests. -/
def attemptClocks (m : WiFiManager) (calls : List (Bool × Nat)) : List Nat :=
  ((reconnectTrace m calls).filter ReconnectCall.isAttempt).map ReconnectCall.clock

/-! ## Sample runs -/

/-- Clock values of calls made every 5000 ms: `5000, 10000, ..`, `n` of them. -/
def everyInterval (n : Nat) : List Nat := (List.range n).map (fun k => 5000 * (k + 1))

/-- Twenty calls 5000 ms apart, the next call 2^31 ms after the twentieth, and
a last call 4999 ms (modulo 2^32) after the twentieth. -/
def wrapClocks : List Nat := everyInterval 20 ++ [100000 + 2147483648, 104999]

/-- The manager after the exhausted branch was taken at clock 105000. -/
def exhaustedAt105000 : WiFiManager :=
  { ssid := "", password := "", lastReconnectAttempt := 105000, retryCount := 0 }

/-- A manager whose last attempt, the third, was made at clock 15000. -/
def attemptedAt15000 : WiFiManager :=
  { ssid := "Lab", password := "pw123456", lastReconnectAttempt := 15000, retryCount := 3 }


/-- A run of `loop()` in which the transport starts an update. -/
def tickStart : TickInput :=
  { statusReconnect := true, millisReconnect := 70000, statusOta := true,
    otaEvents := [.onStart 0], statusSend := true, millisSend := 70000 }

/-- A later run of `loop()`, connected, with the send interval elapsed. -/
def tickDue : TickInput :=
  { statusReconnect := true, millisReconnect := 70010, statusOta := true,
    otaEvents := [], statusSend := true, millisSend := 70010 }

/-- The application state once the update of `tickStart` has started. -/
def appStarted : App :=
  { wifiManager := WiFiManager.new, otaManager := { updating := true, lastProgress := 0 },
    isConfigured := false, lastDataSend := 0 }

/-- A JSON collaborator whose file contents are the documents themselves. -/
def plainLibrary : JsonLibrary JsonDocument :=
  { serializeJson := fun doc => doc, deserializeJson := fun file => some file }

/-- A mounted, writable store with no file. -/
def emptyStore : Spiffs JsonDocument :=
  { mountable := true, mounted := true, writable := true, files := fun _ => none }

/-- A store that was never mounted and has no file. -/
def freshStore : Spiffs JsonDocument :=
  { mountable := true, mounted := false, writable := true, files := fun _ => none }

/-- The manager after consecutive calls of `handleReconnect`, each with the
connectivity and the clock value it observes. -/
def reconnectState (m : WiFiManager) : List (Bool × Nat) → WiFiManager
  | [] => m
  | (connected, t) :: rest => reconnectState (m.handleReconnect connected t).1 rest

/-- Calls of `handleReconnect` during which the network reports connected. -/
def allConnected (ts : List Nat) : List (Bool × Nat) := ts.map (fun t => (true, t))

/-- A run of `loop()` 60000 ms after start: connected, no update traffic. -/
def tickFirstDue : TickInput :=
  { statusReconnect := true, millisReconnect := 60000, statusOta := true,
    otaEvents := [], statusSend := true, millisSend := 60000 }

/-- A run of `loop()` 59999 ms after `tickFirstDue`. -/
def tickTooSoon : TickInput :=
  { statusReconnect := true, millisReconnect := 119999, statusOta := true,
    otaEvents := [], statusSend := true, millisSend := 119999 }

/-- The application state after the uplink fired at clock 60000. -/
def appSentAt60000 : App :=
  { wifiManager := WiFiManager.new, otaManager := OTAManager.new,
    isConfigured := false, lastDataSend := 60000 }

/-- A web server whose callback is the one `setup()` registers, the network
answering connected at once. -/
def serverAfterSetup : WebServerManager JsonDocument :=
  { configUpdateCallback := some (setupConfigCallback plainLibrary (fun _ => true)) }

/-- A POST with ssid `Lab` and password `pw123456`. -/
def postLab : PostRequest := { params := [("ssid", "Lab"), ("password", "pw123456")] }

/-- A POST with a password and no ssid. -/
def postNoSsid : PostRequest := { params := [("password", "pw123456")] }

/-! ## Theorems -/

theorem gateAfter_append (b : Bool) (xs ys : List OTAEvent) :
    gateAfter b (xs ++ ys) = gateAfter (gateAfter b xs) ys := by
  induction xs generalizing b with
  | nil => rfl
  | cons e es ih => simp [gateAfter, ih]

theorem gateAfter_eq (b : Bool) (evs : List OTAEvent) :
    gateAfter b evs = inProgress b evs := by
  unfold inProgress
  induction evs generalizing b with
  | nil => rfl
  | cons e es ih =>
    rw [gateAfter, ih, List.filterMap_cons]
    cases e.gate with
    | none => rfl
    | some g => simp [List.getLast?_cons]

theorem delivered_append (xs ys : List TickInput) :
    delivered (xs ++ ys) = delivered xs ++ delivered ys := by
  induction xs with
  | nil => rfl
  | cons i is ih => simp [delivered, ih]

theorem deliver_updating (o o1 : OTAManager) (e : OTAEvent) (fx : List Effect)
    (h : o.deliver e = some (o1, fx)) : o1.updating = e.gate.getD o.updating := by
  cases e with
  | onStart c =>
    simp only [OTAManager.deliver, OTAManager.onStart, Option.some.injEq, Prod.mk.injEq] at h
    rw [← h.1]; rfl
  | onEnd =>
    simp only [OTAManager.deliver, OTAManager.onEnd, Option.some.injEq, Prod.mk.injEq] at h
    rw [← h.1]; rfl
  | onError c =>
    simp only [OTAManager.deliver, OTAManager.onError, Option.some.injEq, Prod.mk.injEq] at h
    rw [← h.1]; rfl
  | onProgress p t =>
    simp only [OTAManager.deliver, OTAManager.onProgress] at h
    split at h
    · cases h
    · split at h
      · cases h
      · split at h
        · simp only [Option.some.injEq, Prod.mk.injEq] at h
          rw [← h.1]; rfl
        · simp only [Option.some.injEq, Prod.mk.injEq] at h
          rw [← h.1]; rfl

theorem handle_updating (evs : List OTAEvent) (o o1 : OTAManager) (fx : List Effect)
    (h : o.handle evs = some (o1, fx)) : o1.updating = gateAfter o.updating evs := by
  induction evs generalizing o fx with
  | nil =>
    simp only [OTAManager.handle, Option.some.injEq, Prod.mk.injEq] at h
    rw [← h.1]; rfl
  | cons e es ih =>
    simp only [OTAManager.handle] at h
    cases hd : o.deliver e with
    | none => rw [hd] at h; cases h
    | some r =>
      obtain ⟨o2, fx2⟩ := r
      rw [hd] at h
      dsimp only at h
      cases hh : OTAManager.handle o2 es with
      | none => rw [hh] at h; cases h
      | some r2 =>
        obtain ⟨o3, fx3⟩ := r2
        rw [hh] at h
        dsimp only at h
        simp only [Option.some.injEq, Prod.mk.injEq] at h
        obtain ⟨h1, _⟩ := h
        subst h1
        rw [ih o2 fx3 hh, deliver_updating o o2 e fx2 hd]
        rfl

theorem loop_updating (i : TickInput) (a a1 : App) (fx : List Effect)
    (h : loop i a = some (a1, fx)) :
    a1.otaManager.updating =
      gateAfter a.otaManager.updating (if i.statusOta then i.otaEvents else []) := by
  unfold loop at h
  by_cases hs : i.statusOta = true
  · simp only [hs, if_true] at h ⊢
    cases hh : a.otaManager.handle i.otaEvents with
    | none => rw [hh] at h; cases h
    | some r =>
      obtain ⟨om, fx2⟩ := r
      rw [hh] at h
      simp only [Option.some.injEq, Prod.mk.injEq] at h
      rw [← h.1]
      exact handle_updating _ _ _ _ hh
  · simp only [hs] at h ⊢
    simp only [Bool.false_eq_true, if_false, Option.some.injEq, Prod.mk.injEq] at h ⊢
    rw [← h.1]; rfl

theorem runTicks_updating (is : List TickInput) (a a1 : App) (fx : List Effect)
    (h : runTicks a is = some (a1, fx)) :
    a1.otaManager.updating = gateAfter a.otaManager.updating (delivered is) := by
  induction is generalizing a fx with
  | nil =>
    simp only [runTicks, Option.some.injEq, Prod.mk.injEq] at h
    rw [← h.1]; rfl
  | cons i is ih =>
    simp only [runTicks] at h
    cases hl : loop i a with
    | none => rw [hl] at h; cases h
    | some r =>
      obtain ⟨a2, fx2⟩ := r
      rw [hl] at h
      dsimp only at h
      cases hr : runTicks a2 is with
      | none => rw [hr] at h; cases h
      | some r2 =>
        obtain ⟨a3, fx3⟩ := r2
        rw [hr] at h
        dsimp only at h
        simp only [Option.some.injEq, Prod.mk.injEq] at h
        obtain ⟨h1, _⟩ := h
        subst h1
        rw [ih a2 fx3 hr, loop_updating i a a2 fx2 hl]
        simp [delivered, gateAfter_append]

theorem handleReconnect_no_send (c : Bool) (t : Nat) (m : WiFiManager) :
    Effect.sendExampleData ∉ (m.handleReconnect c t).2 := by
  unfold WiFiManager.handleReconnect
  split
  · simp
  · simp only []
    split
    · split <;> simp
    · simp

theorem deliver_no_send (o o1 : OTAManager) (e : OTAEvent) (fx : List Effect)
    (h : o.deliver e = some (o1, fx)) : Effect.sendExampleData ∉ fx := by
  cases e with
  | onStart c =>
    simp only [OTAManager.deliver, OTAManager.onStart, Option.some.injEq, Prod.mk.injEq] at h
    rw [← h.2]; simp
  | onEnd =>
    simp only [OTAManager.deliver, OTAManager.onEnd, Option.some.injEq, Prod.mk.injEq] at h
    rw [← h.2]; simp
  | onError c =>
    simp only [OTAManager.deliver, OTAManager.onError, Option.some.injEq, Prod.mk.injEq] at h
    rw [← h.2]; simp
  | onProgress p t =>
    simp only [OTAManager.deliver, OTAManager.onProgress] at h
    split at h
    · cases h
    · split at h
      · cases h
      · split at h
        · simp only [Option.some.injEq, Prod.mk.injEq] at h
          rw [← h.2]; simp
        · simp only [Option.some.injEq, Prod.mk.injEq] at h
          rw [← h.2]; simp

theorem handle_no_send (evs : List OTAEvent) (o o1 : OTAManager) (fx : List Effect)
    (h : o.handle evs = some (o1, fx)) : Effect.sendExampleData ∉ fx := by
  induction evs generalizing o fx with
  | nil =>
    simp only [OTAManager.handle, Option.some.injEq, Prod.mk.injEq] at h
    rw [← h.2]; simp
  | cons e es ih =>
    simp only [OTAManager.handle] at h
    cases hd : o.deliver e with
    | none => rw [hd] at h; cases h
    | some r =>
      obtain ⟨o2, fx2⟩ := r
      rw [hd] at h
      dsimp only at h
      cases hh : OTAManager.handle o2 es with
      | none => rw [hh] at h; cases h
      | some r2 =>
        obtain ⟨o3, fx3⟩ := r2
        rw [hh] at h
        dsimp only at h
        simp only [Option.some.injEq, Prod.mk.injEq] at h
        obtain ⟨h1, h2⟩ := h
        subst h1
        rw [← h2]
        simp only [List.mem_append, not_or]
        exact ⟨deliver_no_send o o2 e fx2 hd, ih o2 fx3 hh⟩

theorem usub_mod_left (a b : Nat) : usub (a % U32) b = usub a b := by
  simp [usub]

theorem uplinkCheck_send_iff (connected updating : Bool) (now last : Nat) :
    Effect.sendExampleData ∈ (uplinkCheck connected updating now last).2 ↔
      (DATA_SEND_INTERVAL ≤ usub now last ∧ connected = true ∧ updating = false) := by
  unfold uplinkCheck
  cases connected <;> cases updating <;> simp [usub_mod_left]
  split <;> simp_all

theorem loop_send_iff (i : TickInput) (a a1 : App) (fx : List Effect)
    (h : loop i a = some (a1, fx)) :
    (Effect.sendExampleData ∈ fx ↔
      Effect.sendExampleData ∈
        (uplinkCheck i.statusSend a1.otaManager.isUpdating i.millisSend a.lastDataSend).2) ∧
    a1.lastDataSend =
      (uplinkCheck i.statusSend a1.otaManager.isUpdating i.millisSend a.lastDataSend).1 := by
  unfold loop at h
  dsimp only at h
  cases hh : (if i.statusOta = true then a.otaManager.handle i.otaEvents
      else some (a.otaManager, [])) with
  | none => rw [hh] at h; cases h
  | some r =>
    obtain ⟨om, fx2⟩ := r
    rw [hh] at h
    dsimp only at h
    simp only [Option.some.injEq, Prod.mk.injEq] at h
    obtain ⟨h1, h2⟩ := h
    subst h1
    have hfx2 : Effect.sendExampleData ∉ fx2 := by
      by_cases hs : i.statusOta = true
      · rw [if_pos hs] at hh
        exact handle_no_send _ _ _ _ hh
      · rw [if_neg hs] at hh
        simp only [Option.some.injEq, Prod.mk.injEq] at hh
        rw [← hh.2]; simp
    have hfx1 : Effect.sendExampleData ∉
        (if a.isConfigured = true then
          a.wifiManager.handleReconnect i.statusReconnect i.millisReconnect
          else (a.wifiManager, [])).2 := by
      split
      · exact handleReconnect_no_send _ _ _
      · simp
    refine ⟨?_, rfl⟩
    rw [← h2]
    simp only [List.mem_append, List.mem_singleton]
    constructor
    · rintro (((h | h) | h) | h)
      · exact absurd h hfx1
      · exact absurd h hfx2
      · exact h
      · cases h
    · intro h
      exact Or.inl (Or.inr h)

/-- C1: over every sequence of `loop()` runs interleaved with update events,
starting with the gate open, `isUpdating()` at a run's uplink condition is
true exactly when the history of delivered events puts it between an
`onStart` and the next `onEnd`/`onError`, and in such a run `sendExampleData`
is not executed, whatever the clock and the connectivity are. -/
theorem uplink_never_fires_during_update (a0 a a1 : App) (pre : List TickInput)
    (i : TickInput) (fx fx1 : List Effect)
    (h0 : a0.otaManager.isUpdating = false)
    (hpre : runTicks a0 pre = some (a, fx))
    (hi : loop i a = some (a1, fx1)) :
    a1.otaManager.isUpdating = inProgress false (delivered (pre ++ [i])) ∧
    (a1.otaManager.isUpdating = true → Effect.sendExampleData ∉ fx1) := by
  constructor
  · rw [← gateAfter_eq]
    have h1 := runTicks_updating pre a0 a fx hpre
    have h2 := loop_updating i a a1 fx1 hi
    have h0' : a0.otaManager.updating = false := h0
    show a1.otaManager.updating = _
    rw [h2, h1, h0', delivered_append, gateAfter_append]
    simp [delivered]
  · intro hu hmem
    have h3 := (loop_send_iff i a a1 fx1 hi).1.mp hmem
    have h4 := (uplinkCheck_send_iff _ _ _ _).mp h3
    rw [hu] at h4
    exact absurd h4.2.2 (by decide)

/-- Witness of C1: after an `onStart`, a connected run with the interval
elapsed sees `isUpdating()` true and sends nothing. -/
theorem uplink_never_fires_during_update_witness :
    (App.new.otaManager.isUpdating = false ∧
      runTicks App.new [tickStart] =
        some (appStarted, [.log .info "OTA Update Started: sketch", .delay 10]) ∧
      loop tickDue appStarted = some (appStarted, [.delay 10])) ∧
    (appStarted.otaManager.isUpdating = inProgress false (delivered ([tickStart] ++ [tickDue])) ∧
      (appStarted.otaManager.isUpdating = true → Effect.sendExampleData ∉ [Effect.delay 10])) :=
  ⟨⟨by rfl, by rfl, by rfl⟩,
    uplink_never_fires_during_update App.new appStarted appStarted [tickStart] tickDue
      [.log .info "OTA Update Started: sketch", .delay 10] [.delay 10] (by rfl) (by rfl) (by rfl)⟩

/-- C3: a run of `loop()` fails only when a handler run by `otaManager.handle()`
divides by zero; otherwise it executes `sendExampleData` if and only if
`millis() - lastDataSend >= DATA_SEND_INTERVAL` (unsigned 32-bit), WiFi is
connected and `isUpdating()` is false; it then sets `lastDataSend` to the
clock value, and leaves `lastDataSend` unchanged when it does not send. -/
theorem uplink_due_check (i : TickInput) (a : App) :
    (loop i a = none ↔ (i.statusOta = true ∧ a.otaManager.handle i.otaEvents = none)) ∧
    ∀ (a1 : App) (fx : List Effect), loop i a = some (a1, fx) →
      (Effect.sendExampleData ∈ fx ↔
        (DATA_SEND_INTERVAL ≤ usub i.millisSend a.lastDataSend ∧ i.statusSend = true ∧
          a1.otaManager.isUpdating = false)) ∧
      (Effect.sendExampleData ∈ fx → a1.lastDataSend = i.millisSend % U32) ∧
      (Effect.sendExampleData ∉ fx → a1.lastDataSend = a.lastDataSend) := by
  constructor
  · unfold loop
    dsimp only
    by_cases hs : i.statusOta = true
    · simp only [hs, if_true, true_and]
      cases hh : a.otaManager.handle i.otaEvents with
      | none => simp
      | some r => simp
    · simp [hs]
  · intro a1 fx h
    obtain ⟨h1, h2⟩ := loop_send_iff i a a1 fx h
    have h3 := uplinkCheck_send_iff i.statusSend a1.otaManager.isUpdating i.millisSend
      a.lastDataSend
    refine ⟨h1.trans h3, ?_, ?_⟩
    · intro hm
      have h4 := h3.mp (h1.mp hm)
      rw [h2]
      unfold uplinkCheck
      simp [h4.2.1, h4.2.2, usub_mod_left, h4.1]
    · intro hm
      have h4 : ¬ (DATA_SEND_INTERVAL ≤ usub i.millisSend a.lastDataSend ∧
          i.statusSend = true ∧ a1.otaManager.isUpdating = false) :=
        fun hc => hm (h1.mpr (h3.mpr hc))
      rw [h2]
      unfold uplinkCheck
      split
      · rename_i hc
        simp only [Bool.and_eq_true, Bool.not_eq_true'] at hc
        dsimp only
        rw [usub_mod_left]
        split
        · rename_i hd
          exact absurd ⟨hd, hc.1, hc.2⟩ h4
        · rfl
      · rfl

theorem handleReconnect_idle (m : WiFiManager) (t : Nat)
    (h : ¬ WIFI_RECONNECT_INTERVAL ≤ usub t m.lastReconnectAttempt) :
    m.handleReconnect false t = (m, []) := by
  unfold WiFiManager.handleReconnect
  simp [usub_mod_left, h]

theorem handleReconnect_attempt (m : WiFiManager) (t : Nat)
    (h : WIFI_RECONNECT_INTERVAL ≤ usub t m.lastReconnectAttempt)
    (hr : m.retryCount + 1 ≤ 20) :
    m.handleReconnect false t =
      ({ m with lastReconnectAttempt := t % U32, retryCount := m.retryCount + 1 },
        [ .log .info ("Attempting to reconnect to WiFi... (Attempt " ++
            intText (m.retryCount + 1) ++ "/" ++ intText WIFI_MAX_RETRY ++ ")"),
          .net .disconnect, .delay 100, .net (.begin m.ssid (some m.password)) ]) := by
  unfold WiFiManager.handleReconnect
  simp [usub_mod_left, h, hr, WIFI_MAX_RETRY]

theorem handleReconnect_exhausted (m : WiFiManager) (t : Nat)
    (h : WIFI_RECONNECT_INTERVAL ≤ usub t m.lastReconnectAttempt)
    (hr : ¬ m.retryCount + 1 ≤ 20) :
    m.handleReconnect false t =
      ({ m with lastReconnectAttempt := t % U32, retryCount := 0 }, exhaustedEffects) := by
  unfold WiFiManager.handleReconnect
  simp [usub_mod_left, h, hr, WIFI_MAX_RETRY, exhaustedEffects]

theorem reconnect_cycle (ts : List Nat) :
    ∀ (m : WiFiManager) (k : Nat), m.retryCount = (k : Int) → k ≤ 20 →
      ∀ (j : Nat) (c : ReconnectCall),
        ((reconnectTrace m (notConnected ts)).filter ReconnectCall.eligible)[j]? = some c →
        ((k + j + 1) % 21 ≠ 0 →
          c.isAttempt = true ∧ c.after.retryCount = (((k + j + 1) % 21 : Nat) : Int)) ∧
        ((k + j + 1) % 21 = 0 → c.effects = exhaustedEffects ∧ c.after.retryCount = 0) := by
  induction ts with
  | nil =>
    intro m k _ _ j c h
    simp [notConnected, reconnectTrace] at h
  | cons t ts ih =>
    intro m k hk hk20 j c h
    simp only [notConnected, List.map_cons, reconnectTrace] at h
    by_cases he : WIFI_RECONNECT_INTERVAL ≤ usub t m.lastReconnectAttempt
    · by_cases hr : m.retryCount + 1 ≤ 20
      · rw [handleReconnect_attempt m t he hr] at h
        simp only [ReconnectCall.eligible, List.isEmpty_cons, Bool.not_false, List.filter_cons_of_pos]
          at h
        cases j with
        | zero =>
          simp only [List.getElem?_cons_zero, Option.some.injEq] at h
          subst h
          have hk' : k + 1 ≤ 20 := by omega
          have hmod : (k + 0 + 1) % 21 = k + 1 := by omega
          refine ⟨fun _ => ⟨by simp [ReconnectCall.isAttempt, Effect.isBegin], ?_⟩, ?_⟩
          · simp only [hmod, hk]; push_cast; ring
          · intro h0; omega
        | succ j =>
          simp only [List.getElem?_cons_succ] at h
          have := ih { m with lastReconnectAttempt := t % U32, retryCount := m.retryCount + 1 }
            (k + 1) (by simp [hk]) (by omega) j c h
          have e : k + 1 + j + 1 = k + (j + 1) + 1 := by ring
          rw [e] at this
          exact this
      · rw [handleReconnect_exhausted m t he hr] at h
        simp only [ReconnectCall.eligible, exhaustedEffects, List.isEmpty_cons, Bool.not_false,
          List.filter_cons_of_pos] at h
        have hk21 : k = 20 := by omega
        cases j with
        | zero =>
          simp only [List.getElem?_cons_zero, Option.some.injEq] at h
          subst h
          refine ⟨fun h0 => ?_, fun _ => ⟨rfl, rfl⟩⟩
          subst hk21
          exact absurd rfl h0
        | succ j =>
          simp only [List.getElem?_cons_succ] at h
          have := ih { m with lastReconnectAttempt := t % U32, retryCount := 0 }
            0 (by simp) (by omega) j c h
          have e : (k + (j + 1) + 1) % 21 = (0 + j + 1) % 21 := by omega
          rw [e]
          exact this
    · rw [handleReconnect_idle m t he] at h
      rw [List.filter_cons_of_neg (by simp [ReconnectCall.eligible])] at h
      exact ih m k hk hk20 j c h

/-- C2: starting from `retryCount = 0` with the network never connected,
whatever the clock values are, the calls of `handleReconnect` that pass the
interval test go in cycles of `WIFI_MAX_RETRY + 1 = 21`: the first 20 of a
cycle each issue a connect request and leave `retryCount` at 1..20, and the
one after exactly 20 attempts takes the exhausted branch (it only logs the
maximum-retries failure, issues no connect request) and resets `retryCount` to 0. -/
theorem reconnect_exhausts_after_max_retry (m : WiFiManager) (ts : List Nat) (j : Nat)
    (c : ReconnectCall)
    (h0 : m.retryCount = 0)
    (hj : ((reconnectTrace m (notConnected ts)).filter ReconnectCall.eligible)[j]? = some c) :
    (j % 21 < 20 → c.isAttempt = true ∧ c.after.retryCount = ((j % 21 + 1 : Nat) : Int)) ∧
    (j % 21 = 20 →
      c.effects = exhaustedEffects ∧ c.isAttempt = false ∧ c.after.retryCount = 0) := by
  have h := reconnect_cycle ts m 0 (by simp [h0]) (by omega) j c hj
  constructor
  · intro hlt
    have h1 := h.1 (by omega)
    refine ⟨h1.1, ?_⟩
    rw [h1.2]
    have : (0 + j + 1) % 21 = j % 21 + 1 := by omega
    rw [this]
  · intro heq
    have h2 := h.2 (by omega)
    refine ⟨h2.1, ?_, h2.2⟩
    rw [ReconnectCall.isAttempt, h2.1]
    rfl

/-- Witness of C2: from a fresh manager, with calls every 5000 ms and the
network never connected, the 21st call is the exhausted branch. -/
theorem reconnect_exhausts_after_max_retry_witness :
    (WiFiManager.new.retryCount = 0 ∧
      ((reconnectTrace WiFiManager.new (notConnected (everyInterval 21))).filter
        ReconnectCall.eligible)[20]? =
        some { clock := 105000, after := exhaustedAt105000, effects := exhaustedEffects }) ∧
    ((20 % 21 < 20 →
        ReconnectCall.isAttempt
            { clock := 105000, after := exhaustedAt105000, effects := exhaustedEffects } = true ∧
          exhaustedAt105000.retryCount = ((20 % 21 + 1 : Nat) : Int)) ∧
      (20 % 21 = 20 →
        exhaustedEffects = exhaustedEffects ∧
          ReconnectCall.isAttempt
            { clock := 105000, after := exhaustedAt105000, effects := exhaustedEffects } = false ∧
          exhaustedAt105000.retryCount = 0)) :=
  ⟨⟨rfl, by rfl⟩,
    reconnect_exhausts_after_max_retry WiFiManager.new (everyInterval 21) 20
      { clock := 105000, after := exhaustedAt105000, effects := exhaustedEffects } rfl (by rfl)⟩

theorem usub_mod_right (a b : Nat) : usub a (b % U32) = usub a b := by
  simp [usub]

theorem handleReconnect_connected (m : WiFiManager) (t : Nat) :
    m.handleReconnect true t = ({ m with retryCount := 0 }, []) := by
  simp [WiFiManager.handleReconnect]

theorem handleReconnect_eligible (m : WiFiManager) (t : Nat)
    (h : WIFI_RECONNECT_INTERVAL ≤ usub t m.lastReconnectAttempt) :
    (m.handleReconnect false t).2.isEmpty = false ∧
      (m.handleReconnect false t).1.lastReconnectAttempt = t % U32 := by
  by_cases hr : m.retryCount + 1 ≤ 20
  · rw [handleReconnect_attempt m t h hr]; exact ⟨rfl, rfl⟩
  · rw [handleReconnect_exhausted m t h hr]; exact ⟨rfl, rfl⟩

theorem eligible_chain (calls : List (Bool × Nat)) :
    ∀ m : WiFiManager,
      List.Chain' spaced ((reconnectTrace m calls).filter ReconnectCall.eligible) ∧
      ∀ c ∈ ((reconnectTrace m calls).filter ReconnectCall.eligible).head?,
        WIFI_RECONNECT_INTERVAL ≤ usub c.clock m.lastReconnectAttempt := by
  induction calls with
  | nil => intro m; simp [reconnectTrace]
  | cons x rest ih =>
    intro m
    obtain ⟨connected, t⟩ := x
    simp only [reconnectTrace]
    cases connected with
    | true =>
      rw [handleReconnect_connected]
      rw [List.filter_cons_of_neg (by simp [ReconnectCall.eligible])]
      exact ih { m with retryCount := 0 }
    | false =>
      by_cases he : WIFI_RECONNECT_INTERVAL ≤ usub t m.lastReconnectAttempt
      · obtain ⟨h1, h2⟩ := handleReconnect_eligible m t he
        rw [List.filter_cons_of_pos (by simp [ReconnectCall.eligible, h1])]
        obtain ⟨ih1, ih2⟩ := ih (m.handleReconnect false t).1
        refine ⟨?_, ?_⟩
        · rw [List.chain'_cons']
          refine ⟨?_, ih1⟩
          intro y hy
          have := ih2 y hy
          rw [h2, usub_mod_right] at this
          exact this
        · intro c hc
          simp only [List.head?_cons, Option.mem_def, Option.some.injEq] at hc
          subst hc
          exact he
      · rw [handleReconnect_idle m t he]
        rw [List.filter_cons_of_neg (by simp [ReconnectCall.eligible])]
        exact ih m

theorem idle_calls (ts : List Nat) (m : WiFiManager)
    (hts : ∀ t ∈ ts, usub t m.lastReconnectAttempt < WIFI_RECONNECT_INTERVAL) :
    ∀ c ∈ reconnectTrace m (notConnected ts), c.after = m ∧ c.effects = [] := by
  induction ts with
  | nil => intro c hc; simp [notConnected, reconnectTrace] at hc
  | cons t ts ih =>
    intro c hc
    have ht : ¬ WIFI_RECONNECT_INTERVAL ≤ usub t m.lastReconnectAttempt :=
      Nat.not_le.mpr (hts t (List.mem_cons_self t ts))
    simp only [notConnected, List.map_cons, reconnectTrace, handleReconnect_idle m t ht,
      List.mem_cons] at hc
    rcases hc with hc | hc
    · subst hc; exact ⟨rfl, rfl⟩
    · exact ih (fun u hu => hts u (List.mem_cons_of_mem t hu)) c hc

/-- C4, as stated, fails: with the network never connected, the twentieth
attempt is issued at clock 100000, the exhausted branch is taken 2^31 ms
later, and the next attempt is issued at clock 104999 (after the 32-bit clock
wrapped), 4999 < 5000 after the twentieth in unsigned 32-bit subtraction. -/
theorem consecutive_attempts_closer_than_interval :
    (attemptClocks WiFiManager.new (notConnected wrapClocks)).drop 19 = [100000, 104999] ∧
    usub 104999 100000 < WIFI_RECONNECT_INTERVAL ∧
    ¬ List.Chain' (fun t1 t2 => WIFI_RECONNECT_INTERVAL ≤ usub t2 t1)
        (attemptClocks WiFiManager.new (notConnected wrapClocks)) := by
  have e : attemptClocks WiFiManager.new (notConnected wrapClocks) =
      [5000, 10000, 15000, 20000, 25000, 30000, 35000, 40000, 45000, 50000, 55000, 60000,
        65000, 70000, 75000, 80000, 85000, 90000, 95000, 100000, 104999] := by rfl
  rw [e]
  refine ⟨rfl, by decide, ?_⟩
  intro h
  simp only [List.chain'_cons, List.chain'_singleton, and_true] at h
  exact absurd h.2.2.2.2.2.2.2.2.2.2.2.2.2.2.2.2.2.2.2 (by decide)

/-- C4, amended: over any sequence of `handleReconnect` calls, two consecutive
calls that pass the interval test (each a reconnect attempt or the exhausted
branch) are at least `WIFI_RECONNECT_INTERVAL` apart in unsigned 32-bit
subtraction, so two consecutive attempts with no exhausted-branch call between
them are; and not-connected calls made less than one interval after the last
such call issue nothing and leave the manager unchanged. -/
theorem reconnect_at_most_once_per_interval (m : WiFiManager) (calls : List (Bool × Nat))
    (ts : List Nat)
    (hts : ∀ t ∈ ts, usub t m.lastReconnectAttempt < WIFI_RECONNECT_INTERVAL) :
    List.Chain' spaced ((reconnectTrace m calls).filter ReconnectCall.eligible) ∧
    (∀ c ∈ reconnectTrace m (notConnected ts), c.after = m ∧ c.effects = []) :=
  ⟨(eligible_chain calls m).1, idle_calls ts m hts⟩

/-- Witness of the amended C4: three calls within 4999 ms of an attempt made
at clock 15000. -/
theorem reconnect_at_most_once_per_interval_witness :
    (∀ t ∈ [15010, 17000, 19999],
      usub t attemptedAt15000.lastReconnectAttempt < WIFI_RECONNECT_INTERVAL) ∧
    (List.Chain' spaced
        ((reconnectTrace attemptedAt15000 (notConnected wrapClocks)).filter
          ReconnectCall.eligible) ∧
      (∀ c ∈ reconnectTrace attemptedAt15000 (notConnected [15010, 17000, 19999]),
        c.after = attemptedAt15000 ∧ c.effects = [])) :=
  ⟨by decide,
    reconnect_at_most_once_per_interval attemptedAt15000 (notConnected wrapClocks)
      [15010, 17000, 19999] (by decide)⟩

/-- C5: `connect` called with a null or empty ssid returns false, leaves the
manager (stored ssid, stored password, `retryCount`, `lastReconnectAttempt`)
as it was and sends no disconnect or connect request to the network, whatever
the manager state, the password and the network status are. -/
theorem connect_rejects_empty_ssid (m : WiFiManager) (ssid password : Option String)
    (status : Nat → Bool)
    (h : ssid = none ∨ ∃ s, ssid = some s ∧ s.length = 0) :
    (m.connect ssid password status).1 = false ∧
    (m.connect ssid password status).2.1 = m ∧
    (m.connect ssid password status).2.2.any Effect.isNet = false := by
  rcases h with h | ⟨s, h, hs⟩
  · subst h; exact ⟨rfl, rfl, rfl⟩
  · subst h
    simp [WiFiManager.connect, hs, Effect.isNet]

/-- Witness of C5: an empty ssid offered to a manager that holds an identity. -/
theorem connect_rejects_empty_ssid_witness :
    ((some "" : Option String) = none ∨ ∃ s, (some "" : Option String) = some s ∧ s.length = 0) ∧
    ((attemptedAt15000.connect (some "") (some "x") (fun _ => true)).1 = false ∧
      (attemptedAt15000.connect (some "") (some "x") (fun _ => true)).2.1 = attemptedAt15000 ∧
      (attemptedAt15000.connect (some "") (some "x") (fun _ => true)).2.2.any Effect.isNet
        = false) :=
  ⟨Or.inr ⟨"", rfl, rfl⟩,
    connect_rejects_empty_ssid attemptedAt15000 (some "") (some "x") (fun _ => true)
      (Or.inr ⟨"", rfl, rfl⟩)⟩

theorem onProgress_eq_none_iff (o : OTAManager) (progress total : Nat) :
    o.onProgress progress total = none ↔ total % U32 < 100 := by
  have h100 : (100 : Nat) % U32 = 100 := by decide
  have h1 : udiv total 100 = some (total % U32 / 100) := by
    unfold udiv
    rw [h100]
    rfl
  unfold OTAManager.onProgress
  rw [h1]
  dsimp only
  by_cases ht : total % U32 < 100
  · have hz : total % U32 / 100 = 0 := Nat.div_eq_of_lt ht
    have h2 : udiv progress (total % U32 / 100) = none := by
      unfold udiv
      rw [hz]
      rfl
    rw [h2]
    simp [ht]
  · have hz : total % U32 / 100 ≠ 0 := by
      intro h0
      have := (Nat.div_eq_zero_iff (by decide : 0 < 100)).mp h0
      exact ht this
    have hlt : total % U32 / 100 < U32 := by
      have : total % U32 < U32 := Nat.mod_lt _ (by decide)
      exact lt_of_le_of_lt (Nat.div_le_self _ _) this
    have hm : total % U32 / 100 % U32 = total % U32 / 100 := Nat.mod_eq_of_lt hlt
    have h2 : udiv progress (total % U32 / 100) =
        some (progress % U32 / (total % U32 / 100)) := by
      unfold udiv
      rw [hm, if_neg hz]
    rw [h2]
    dsimp only
    split <;> simp [ht]

theorem handle_total (evs : List OTAEvent) (o : OTAManager)
    (hok : ∀ p t, OTAEvent.onProgress p t ∈ evs → 100 ≤ t % U32) :
    ∃ o1 fx, o.handle evs = some (o1, fx) := by
  induction evs generalizing o with
  | nil => exact ⟨o, [], rfl⟩
  | cons e es ih =>
    have hd : ∃ o2 fx2, o.deliver e = some (o2, fx2) := by
      cases e with
      | onStart c => exact ⟨_, _, rfl⟩
      | onEnd => exact ⟨_, _, rfl⟩
      | onError c => exact ⟨_, _, rfl⟩
      | onProgress p t =>
        have hne : o.onProgress p t ≠ none := by
          rw [Ne, onProgress_eq_none_iff]
          exact Nat.not_lt.mpr (hok p t (List.mem_cons_self _ _))
        cases hp : o.onProgress p t with
        | none => exact absurd hp hne
        | some r => exact ⟨r.1, r.2, by simp [OTAManager.deliver, hp]⟩
    obtain ⟨o2, fx2, hd⟩ := hd
    obtain ⟨o3, fx3, hh⟩ := ih o2 (fun p t hm => hok p t (List.mem_cons_of_mem _ hm))
    exact ⟨o3, fx2 ++ fx3, by simp [OTAManager.handle, hd, hh]⟩

/-- C7: from every prior state of the OTA manager, `isUpdating()` is false
after the `onError` handler (any error code) and after the `onEnd` handler;
and when events are delivered, `isUpdating()` afterwards is true exactly when
the last start/end/error event delivered was an `onStart` (the prior value
when there was none). The handlers all return when every progress report has
a total of at least 100, so that none divides by zero. -/
theorem ota_gate_follows_last_event (o : OTAManager) (error : Nat) (evs : List OTAEvent) :
    (o.onError error).1.isUpdating = false ∧
    o.onEnd.1.isUpdating = false ∧
    (∀ o1 fx, o.handle evs = some (o1, fx) → o1.isUpdating = inProgress o.isUpdating evs) ∧
    ((∀ p t, OTAEvent.onProgress p t ∈ evs → 100 ≤ t % U32) →
      ∃ o1 fx, o.handle evs = some (o1, fx) ∧ o1.isUpdating = inProgress o.isUpdating evs) := by
  have hsafe : ∀ o1 fx, o.handle evs = some (o1, fx) →
      o1.isUpdating = inProgress o.isUpdating evs := by
    intro o1 fx h
    rw [← gateAfter_eq]
    exact handle_updating evs o o1 fx h
  refine ⟨rfl, rfl, hsafe, ?_⟩
  intro hok
  obtain ⟨o1, fx, h⟩ := handle_total evs o hok
  exact ⟨o1, fx, h, hsafe o1 fx h⟩

/-- Witness of C7: a started update that reported 50% and then failed leaves
`isUpdating()` false. -/
theorem ota_gate_follows_last_event_witness :
    (∀ p t, OTAEvent.onProgress p t ∈ [OTAEvent.onStart 0, .onProgress 500 1000, .onError 3] →
      100 ≤ t % U32) ∧
    OTAManager.new.handle [OTAEvent.onStart 0, .onProgress 500 1000, .onError 3] =
      some ({ updating := false, lastProgress := 50 },
        [ .log .info "OTA Update Started: sketch", .log .info "OTA Progress: 50%",
          .log .error "OTA Error[3]: Receive Failed" ]) ∧
    inProgress OTAManager.new.isUpdating [OTAEvent.onStart 0, .onProgress 500 1000, .onError 3]
      = false ∧
    ∃ o1 fx, OTAManager.new.handle [OTAEvent.onStart 0, .onProgress 500 1000, .onError 3]
        = some (o1, fx) ∧
      o1.isUpdating = inProgress OTAManager.new.isUpdating
        [OTAEvent.onStart 0, .onProgress 500 1000, .onError 3] :=
  ⟨by intro p t h; simp at h; obtain ⟨_, rfl⟩ := h; decide, by rfl, by rfl,
    (ota_gate_follows_last_event OTAManager.new 3
      [OTAEvent.onStart 0, .onProgress 500 1000, .onError 3]).2.2.2
      (by intro p t h; simp at h; obtain ⟨_, rfl⟩ := h; decide)⟩

/-- C8: the progress handler computes `progress / (total / 100)`; the divisor
is zero, and the handler divides by zero, exactly when `total < 100`, in
particular for `total = 0`. -/
theorem onProgress_divides_by_zero (o : OTAManager) (progress total : Nat) :
    o.onProgress progress 0 = none ∧
    (o.onProgress progress total = none ↔ total % U32 < 100) :=
  ⟨(onProgress_eq_none_iff o progress 0).mpr (by decide), onProgress_eq_none_iff o progress total⟩

/-- C10, as stated, fails: after `disconnect()` a manager that holds the
identity `Lab` / `pw123456` still returns `Lab` from `getSSID()` and still
holds the password. -/
theorem disconnect_keeps_identity_example :
    attemptedAt15000.disconnect.1.getSSID = "Lab" ∧
    attemptedAt15000.disconnect.1.getSSID ≠ "" ∧
    attemptedAt15000.disconnect.1.password ≠ "" := by
  refine ⟨rfl, by decide, by decide⟩

/-- C10, amended: `disconnect()` sends one disconnect request to the network
and logs; the manager, with its in-memory identity, is unchanged. The
persisted configuration document is not touched: `disconnect` has no access
to the store. -/
theorem disconnect_leaves_manager (m : WiFiManager) :
    m.disconnect.1 = m ∧
    m.disconnect.1.getSSID = m.getSSID ∧
    m.disconnect.2 = [ .net .disconnect, .log .info "WiFi disconnected" ] :=
  ⟨rfl, rfl, rfl⟩

theorem configDocument_ssid (ssid password : Option String) :
    (configDocument ssid password).getCStr "ssid" = ssid := by
  cases ssid <;> cases password <;> rfl

theorem configDocument_password (ssid password : Option String) :
    (configDocument ssid password).getCStr "password" = password := by
  cases ssid <;> cases password <;> rfl

theorem begin_mountable {Bytes : Type} (fs : Spiffs Bytes) (h : fs.mountable = true) :
    fs.begin = (true, { fs with mounted := true }) := by
  obtain ⟨mountable, mounted, writable, files⟩ := fs
  cases mounted <;> simp_all [Spiffs.begin]

theorem readIdentity_serialized {Bytes : Type} (lib : JsonLibrary Bytes)
    (ssid password : Option String)
    (hlib : lib.deserializeJson (lib.serializeJson (configDocument ssid password)) =
      some (configDocument ssid password)) :
    readIdentity lib (lib.serializeJson (configDocument ssid password)) =
      some (ssid, password) := by
  simp [readIdentity, hlib, configDocument_ssid, configDocument_password]

theorem saveConfiguration_ok {Bytes : Type} (lib : JsonLibrary Bytes)
    (ssid password : Option String) (a : App) (fs : Spiffs Bytes)
    (hm : fs.mounted = true) (hw : fs.writable = true) :
    saveConfiguration lib ssid password a fs =
      ({ a with isConfigured := true },
        { fs with files := fun p =>
            if p = CONFIG_FILE then some (lib.serializeJson (configDocument ssid password))
            else fs.files p },
        [ .log .info "Configuration saved to SPIFFS" ]) := by
  simp [saveConfiguration, Spiffs.write, hm, hw]

theorem loadConfiguration_found {Bytes : Type} (lib : JsonLibrary Bytes) (status : Nat → Bool)
    (a : App) (fs : Spiffs Bytes) (file : Bytes) (ssid password : Option String)
    (hmb : fs.mountable = true) (hf : fs.files CONFIG_FILE = some file)
    (hr : readIdentity lib file = some (ssid, password)) :
    loadConfiguration lib status a fs =
      if ssid = none ∨ (ssid.getD "").length = 0 then
        ({ a with isConfigured := false }, { fs with mounted := true },
          [ .log .warn "No WiFi credentials found in configuration" ])
      else if (a.wifiManager.connect ssid password status).1 = true then
        ({ a with wifiManager := (a.wifiManager.connect ssid password status).2.1,
                  isConfigured := true }, { fs with mounted := true },
          [ .log .info "Configuration loaded successfully" ] ++
            (a.wifiManager.connect ssid password status).2.2)
      else
        ({ a with wifiManager := (a.wifiManager.connect ssid password status).2.1,
                  isConfigured := false }, { fs with mounted := true },
          [ .log .info "Configuration loaded successfully" ] ++
            (a.wifiManager.connect ssid password status).2.2 ++
            [ .log .warn "Failed to connect with stored credentials" ]) := by
  unfold loadConfiguration
  simp only [begin_mountable fs hmb, Bool.not_true, Bool.false_eq_true, if_false,
    Spiffs.openRead, if_true, hf, hr]

theorem connect_stores_identity (m : WiFiManager) (s : String) (password : Option String)
    (status : Nat → Bool) (hs : ¬ s.length = 0) :
    (m.connect (some s) password status).2.1.ssid = s ∧
    (m.connect (some s) password status).2.1.password = password.getD "" ∧
    Effect.net (.begin s password) ∈ (m.connect (some s) password status).2.2 := by
  simp [WiFiManager.connect, hs]

/-- C6: when the store is mounted and accepts the write and the JSON library
reads back the document it wrote, `saveConfiguration(ssid, password)` leaves
in `CONFIG_FILE` a document from which the load reads the name `ssid` and the
secret `password` (empty strings included); a following `loadConfiguration`,
in the same session or after a restart, passes exactly that identity to
`wifiManager.connect` when `ssid` is not empty, and reports no credentials,
without a parse error, when it is empty. -/
theorem save_load_roundtrip {Bytes : Type} (lib : JsonLibrary Bytes) (status : Nat → Bool)
    (a a2 : App) (fs : Spiffs Bytes) (ssid password : String) (remount : Bool)
    (hm : fs.mounted = true) (hmb : fs.mountable = true) (hw : fs.writable = true)
    (hlib : lib.deserializeJson (lib.serializeJson (configDocument (some ssid) (some password)))
      = some (configDocument (some ssid) (some password))) :
    (∃ file, (saveConfiguration lib (some ssid) (some password) a fs).2.1.openRead CONFIG_FILE
        = some file ∧
      readIdentity lib file = some (some ssid, some password)) ∧
    (ssid.length = 0 →
      (saveThenLoad lib status (some ssid) (some password) a a2 fs remount).2.2 =
        [ .log .warn "No WiFi credentials found in configuration" ]) ∧
    (¬ ssid.length = 0 →
      (saveThenLoad lib status (some ssid) (some password) a a2 fs
        remount).1.wifiManager.getSSID = ssid ∧
      (saveThenLoad lib status (some ssid) (some password) a a2 fs
        remount).1.wifiManager.password = password ∧
      Effect.net (.begin ssid (some password)) ∈
        (saveThenLoad lib status (some ssid) (some password) a a2 fs remount).2.2) := by
  have hr := readIdentity_serialized lib (some ssid) (some password) hlib
  unfold saveThenLoad
  rw [saveConfiguration_ok lib (some ssid) (some password) a fs hm hw]
  dsimp only
  have hl := loadConfiguration_found lib status a2
    (Spiffs.withMounted { fs with files := (fun p =>
      if p = CONFIG_FILE then some (lib.serializeJson (configDocument (some ssid) (some password)))
      else fs.files p) } remount) _ (some ssid) (some password)
    (by simpa [Spiffs.withMounted] using hmb) (by simp [Spiffs.withMounted]) hr
  refine ⟨⟨_, ?_, hr⟩, ?_, ?_⟩
  · simp [Spiffs.openRead, hm]
  · intro h0
    rw [hl]
    simp [h0]
  · intro h0
    rw [hl]
    have hc := connect_stores_identity a2.wifiManager ssid (some password) status h0
    simp only [Option.getD_some, h0, reduceCtorEq, or_self, if_false]
    split
    · exact ⟨hc.1, hc.2.1, by simp [hc.2.2]⟩
    · exact ⟨hc.1, hc.2.1, by simp [hc.2.2]⟩

/-- Witness of C6: saving `Lab` / `pw123456` into an empty mounted store and
loading after a restart. -/
theorem save_load_roundtrip_witness :
    (emptyStore.mounted = true ∧ emptyStore.mountable = true ∧ emptyStore.writable = true ∧
      plainLibrary.deserializeJson
          (plainLibrary.serializeJson (configDocument (some "Lab") (some "pw123456")))
        = some (configDocument (some "Lab") (some "pw123456"))) ∧
    ((∃ file, (saveConfiguration plainLibrary (some "Lab") (some "pw123456") App.new
          emptyStore).2.1.openRead CONFIG_FILE = some file ∧
        readIdentity plainLibrary file = some (some "Lab", some "pw123456")) ∧
      ("Lab".length = 0 →
        (saveThenLoad plainLibrary (fun _ => true) (some "Lab") (some "pw123456") App.new App.new
          emptyStore false).2.2 =
          [ .log .warn "No WiFi credentials found in configuration" ]) ∧
      (¬ "Lab".length = 0 →
        (saveThenLoad plainLibrary (fun _ => true) (some "Lab") (some "pw123456") App.new App.new
          emptyStore false).1.wifiManager.getSSID = "Lab" ∧
        (saveThenLoad plainLibrary (fun _ => true) (some "Lab") (some "pw123456") App.new App.new
          emptyStore false).1.wifiManager.password = "pw123456" ∧
        Effect.net (.begin "Lab" (some "pw123456")) ∈
          (saveThenLoad plainLibrary (fun _ => true) (some "Lab") (some "pw123456") App.new
            App.new emptyStore false).2.2)) :=
  ⟨⟨rfl, rfl, rfl, rfl⟩,
    save_load_roundtrip plainLibrary (fun _ => true) App.new App.new emptyStore "Lab" "pw123456"
      false rfl rfl rfl rfl⟩

/-- C9: on a store that can be mounted and written and has no configuration
document, `loadConfiguration` reports not-configured, makes no connect attempt
and writes the default document with `ssid = ""` and `password = ""`; a
following `loadConfiguration` (same session or after a restart) reads that
document as the identity `("", "")` without a parse error, again reports
not-configured and makes no connect attempt. -/
theorem load_missing_creates_default {Bytes : Type} (lib : JsonLibrary Bytes)
    (status status2 : Nat → Bool) (a : App) (fs : Spiffs Bytes) (remount : Bool)
    (hmb : fs.mountable = true) (hw : fs.writable = true)
    (hmiss : fs.files CONFIG_FILE = none)
    (hlib : lib.deserializeJson (lib.serializeJson (configDocument (some "") (some "")))
      = some (configDocument (some "") (some ""))) :
    (loadConfiguration lib status a fs).1.isConfigured = false ∧
    (loadConfiguration lib status a fs).1.wifiManager = a.wifiManager ∧
    (loadConfiguration lib status a fs).2.2 =
      [ .log .warn "Configuration file not found. Using default AP mode." ] ∧
    (loadConfiguration lib status a fs).2.1.files CONFIG_FILE =
      some (lib.serializeJson (configDocument (some "") (some ""))) ∧
    readIdentity lib (lib.serializeJson (configDocument (some "") (some ""))) =
      some (some "", some "") ∧
    (loadTwice lib status status2 a fs remount).1.isConfigured = false ∧
    (loadTwice lib status status2 a fs remount).1.wifiManager = a.wifiManager ∧
    (loadTwice lib status status2 a fs remount).2.2 =
      [ .log .warn "No WiFi credentials found in configuration" ] := by
  have hr := readIdentity_serialized lib (some "") (some "") hlib
  have h1 : loadConfiguration lib status a fs =
      ({ a with isConfigured := false },
        { fs with mounted := true, files := fun p =>
            if p = CONFIG_FILE then
              some (lib.serializeJson (configDocument (some "") (some "")))
            else fs.files p },
        [ .log .warn "Configuration file not found. Using default AP mode." ]) := by
    unfold loadConfiguration
    simp [begin_mountable fs hmb, Spiffs.openRead, hmiss, Spiffs.write, hw]
  unfold loadTwice
  rw [h1]
  dsimp only
  have h2 := loadConfiguration_found lib status2 { a with isConfigured := false }
    (Spiffs.withMounted { fs with mounted := true, files := (fun p =>
      if p = CONFIG_FILE then some (lib.serializeJson (configDocument (some "") (some "")))
      else fs.files p) } remount) _ (some "") (some "")
    (by simpa [Spiffs.withMounted] using hmb) (by simp [Spiffs.withMounted]) hr
  rw [h2]
  refine ⟨rfl, rfl, rfl, by simp, hr, ?_, ?_, ?_⟩ <;> simp

/-- Witness of C9: the first start of a device whose store has no file, and
the start after it. -/
theorem load_missing_creates_default_witness :
    (freshStore.mountable = true ∧ freshStore.writable = true ∧
      freshStore.files CONFIG_FILE = none ∧
      plainLibrary.deserializeJson (plainLibrary.serializeJson
        (configDocument (some "") (some ""))) = some (configDocument (some "") (some ""))) ∧
    ((loadConfiguration plainLibrary (fun _ => true) App.new freshStore).1.isConfigured
        = false ∧
      (loadConfiguration plainLibrary (fun _ => true) App.new freshStore).1.wifiManager
        = App.new.wifiManager ∧
      (loadConfiguration plainLibrary (fun _ => true) App.new freshStore).2.2 =
        [ .log .warn "Configuration file not found. Using default AP mode." ] ∧
      (loadConfiguration plainLibrary (fun _ => true) App.new freshStore).2.1.files CONFIG_FILE =
        some (plainLibrary.serializeJson (configDocument (some "") (some ""))) ∧
      readIdentity plainLibrary (plainLibrary.serializeJson
        (configDocument (some "") (some ""))) = some (some "", some "") ∧
      (loadTwice plainLibrary (fun _ => true) (fun _ => true) App.new freshStore
        false).1.isConfigured = false ∧
      (loadTwice plainLibrary (fun _ => true) (fun _ => true) App.new freshStore
        false).1.wifiManager = App.new.wifiManager ∧
      (loadTwice plainLibrary (fun _ => true) (fun _ => true) App.new freshStore false).2.2 =
        [ .log .warn "No WiFi credentials found in configuration" ]) :=
  ⟨⟨rfl, rfl, rfl, rfl⟩,
    load_missing_creates_default plainLibrary (fun _ => true) (fun _ => true) App.new freshStore
      false rfl rfl rfl rfl⟩

theorem waitLoop_no_begin (status : Nat → Bool) (fuel attempts : Nat) :
    (waitLoop status fuel attempts).2.filter Effect.isBegin = [] := by
  induction fuel generalizing attempts with
  | zero => rfl
  | succ n ih =>
    unfold waitLoop
    split
    · rfl
    · simp [Effect.isBegin, ih]

theorem connected_calls_idle (ts : List Nat) (m : WiFiManager) (h0 : m.retryCount = 0) :
    ∀ c ∈ reconnectTrace m (allConnected ts), c.after = m ∧ c.effects = [] := by
  have hm : ({ m with retryCount := 0 } : WiFiManager) = m := by
    cases m; simp_all
  induction ts with
  | nil => intro c hc; simp [allConnected, reconnectTrace] at hc
  | cons t ts ih =>
    intro c hc
    simp only [allConnected, List.map_cons, reconnectTrace, handleReconnect_connected, hm,
      List.mem_cons] at hc
    rcases hc with hc | hc
    · subst hc; exact ⟨rfl, rfl⟩
    · exact ih c hc

theorem handleReconnect_keeps_identity (connected : Bool) (t : Nat) (m : WiFiManager) :
    (m.handleReconnect connected t).1.ssid = m.ssid ∧
    (m.handleReconnect connected t).1.password = m.password := by
  unfold WiFiManager.handleReconnect
  split
  · exact ⟨rfl, rfl⟩
  · dsimp only
    split
    · split <;> exact ⟨rfl, rfl⟩
    · exact ⟨rfl, rfl⟩

theorem reconnectState_keeps_identity (calls : List (Bool × Nat)) (m : WiFiManager) :
    (reconnectState m calls).ssid = m.ssid ∧ (reconnectState m calls).password = m.password := by
  induction calls generalizing m with
  | nil => exact ⟨rfl, rfl⟩
  | cons x rest ih =>
    obtain ⟨connected, t⟩ := x
    have h1 := ih (m.handleReconnect connected t).1
    have h2 := handleReconnect_keeps_identity connected t m
    exact ⟨h1.1.trans h2.1, h1.2.trans h2.2⟩

/-- C11: for every non-empty ssid and every password (a null one included),
`connect` stores them as the active identity (`getSSID()` returns ssid),
resets `retryCount` to 0 and issues exactly one connect request, with that
ssid and password, whatever the network answers; while the network then
reports connected, any number of `handleReconnect` calls leave the manager
as it is (`retryCount == 0`) and issue nothing; and after any later calls of
`handleReconnect`, failed reconnect attempts included, a call at which the
network reports connected sets `retryCount` back to 0, issues nothing and
keeps the identity and `lastReconnectAttempt`. -/
theorem connect_sets_identity_and_requests_once (m : WiFiManager) (ssid : String)
    (password : Option String) (status : Nat → Bool) (ts : List Nat)
    (calls : List (Bool × Nat)) (t : Nat)
    (hs : ¬ ssid.length = 0) :
    (m.connect (some ssid) password status).2.1.getSSID = ssid ∧
    (m.connect (some ssid) password status).2.1.password = password.getD "" ∧
    (m.connect (some ssid) password status).2.1.retryCount = 0 ∧
    (m.connect (some ssid) password status).2.2.filter Effect.isBegin =
      [ .net (.begin ssid password) ] ∧
    (∀ c ∈ reconnectTrace (m.connect (some ssid) password status).2.1 (allConnected ts),
      c.after = (m.connect (some ssid) password status).2.1 ∧ c.after.retryCount = 0 ∧
        c.effects = []) ∧
    ((reconnectState (m.connect (some ssid) password status).2.1 calls).handleReconnect
      true t).1.retryCount = 0 ∧
    ((reconnectState (m.connect (some ssid) password status).2.1 calls).handleReconnect
      true t).2 = [] ∧
    ((reconnectState (m.connect (some ssid) password status).2.1 calls).handleReconnect
      true t).1.getSSID = ssid ∧
    ((reconnectState (m.connect (some ssid) password status).2.1 calls).handleReconnect
      true t).1.password = password.getD "" ∧
    ((reconnectState (m.connect (some ssid) password status).2.1 calls).handleReconnect
      true t).1.lastReconnectAttempt =
      (reconnectState (m.connect (some ssid) password status).2.1 calls).lastReconnectAttempt
    := by
  have h1 : (m.connect (some ssid) password status).2.1 =
      { m with ssid := ssid, password := password.getD "", retryCount := 0 } := by
    simp [WiFiManager.connect, hs]
  have h2 : (m.connect (some ssid) password status).2.2.filter Effect.isBegin =
      [ .net (.begin ssid password) ] := by
    simp only [WiFiManager.connect, hs, if_false]
    rw [List.filter_append, List.filter_append, List.filter_append, waitLoop_no_begin]
    split <;> simp [Effect.isBegin, logStatus]
  have hk := reconnectState_keeps_identity calls (m.connect (some ssid) password status).2.1
  have hs1 : (m.connect (some ssid) password status).2.1.ssid = ssid := by rw [h1]
  have hp1 : (m.connect (some ssid) password status).2.1.password = password.getD "" := by
    rw [h1]
  refine ⟨hs1, hp1, ?_, h2, ?_, ?_, ?_, ?_, ?_, ?_⟩
  · rw [h1]
  · rw [h1]
    intro c hc
    have := connected_calls_idle ts
      { m with ssid := ssid, password := password.getD "", retryCount := 0 } rfl c hc
    exact ⟨this.1, by rw [this.1], this.2⟩
  · rw [handleReconnect_connected]
  · rw [handleReconnect_connected]
  · rw [handleReconnect_connected]
    exact hk.1.trans hs1
  · rw [handleReconnect_connected]
    exact hk.2.trans hp1
  · rw [handleReconnect_connected]

/-- Witness of C11: `connect("Lab", "pw123456")` on a fresh manager, the
network answering connected at the third poll; later the network is lost, two
reconnect attempts fail (`retryCount` is 2) and the network reports connected
again. -/
theorem connect_sets_identity_and_requests_once_witness :
    (¬ "Lab".length = 0) ∧
    (WiFiManager.new.connect (some "Lab") (some "pw123456") (fun k => decide (3 ≤ k))).1
      = true ∧
    (reconnectState (WiFiManager.new.connect (some "Lab") (some "pw123456")
      (fun k => decide (3 ≤ k))).2.1 (notConnected [5000, 10000])).retryCount = 2 ∧
    ((WiFiManager.new.connect (some "Lab") (some "pw123456")
        (fun k => decide (3 ≤ k))).2.1.getSSID = "Lab" ∧
      (WiFiManager.new.connect (some "Lab") (some "pw123456")
        (fun k => decide (3 ≤ k))).2.1.password = (some "pw123456").getD "" ∧
      (WiFiManager.new.connect (some "Lab") (some "pw123456")
        (fun k => decide (3 ≤ k))).2.1.retryCount = 0 ∧
      (WiFiManager.new.connect (some "Lab") (some "pw123456")
        (fun k => decide (3 ≤ k))).2.2.filter Effect.isBegin =
        [ .net (.begin "Lab" (some "pw123456")) ] ∧
      (∀ c ∈ reconnectTrace (WiFiManager.new.connect (some "Lab") (some "pw123456")
          (fun k => decide (3 ≤ k))).2.1 (allConnected [2000, 2010]),
        c.after = (WiFiManager.new.connect (some "Lab") (some "pw123456")
          (fun k => decide (3 ≤ k))).2.1 ∧ c.after.retryCount = 0 ∧ c.effects = []) ∧
      ((reconnectState (WiFiManager.new.connect (some "Lab") (some "pw123456")
        (fun k => decide (3 ≤ k))).2.1 (notConnected [5000, 10000])).handleReconnect
        true 10010).1.retryCount = 0 ∧
      ((reconnectState (WiFiManager.new.connect (some "Lab") (some "pw123456")
        (fun k => decide (3 ≤ k))).2.1 (notConnected [5000, 10000])).handleReconnect
        true 10010).2 = [] ∧
      ((reconnectState (WiFiManager.new.connect (some "Lab") (some "pw123456")
        (fun k => decide (3 ≤ k))).2.1 (notConnected [5000, 10000])).handleReconnect
        true 10010).1.getSSID = "Lab" ∧
      ((reconnectState (WiFiManager.new.connect (some "Lab") (some "pw123456")
        (fun k => decide (3 ≤ k))).2.1 (notConnected [5000, 10000])).handleReconnect
        true 10010).1.password = (some "pw123456").getD "" ∧
      ((reconnectState (WiFiManager.new.connect (some "Lab") (some "pw123456")
        (fun k => decide (3 ≤ k))).2.1 (notConnected [5000, 10000])).handleReconnect
        true 10010).1.lastReconnectAttempt =
        (reconnectState (WiFiManager.new.connect (some "Lab") (some "pw123456")
          (fun k => decide (3 ≤ k))).2.1 (notConnected [5000, 10000])).lastReconnectAttempt) :=
  ⟨by decide, by rfl, by rfl,
    connect_sets_identity_and_requests_once WiFiManager.new "Lab" (some "pw123456")
      (fun k => decide (3 ≤ k)) [2000, 2010] (notConnected [5000, 10000]) 10010 (by decide)⟩

theorem gateAfter_no_start (evs : List OTAEvent) (h : ∀ c, OTAEvent.onStart c ∉ evs) :
    gateAfter false evs = false := by
  induction evs with
  | nil => rfl
  | cons e es ih =>
    have hes : ∀ c, OTAEvent.onStart c ∉ es := fun c hc => h c (List.mem_cons_of_mem _ hc)
    cases e with
    | onStart c => exact absurd (List.mem_cons_self _ _) (h c)
    | onEnd => exact ih hes
    | onProgress p t => exact ih hes
    | onError c => exact ih hes

theorem loop_quiet (i : TickInput) (a : App)
    (hu : a.otaManager.isUpdating = false)
    (hns : ∀ c, OTAEvent.onStart c ∉ i.otaEvents)
    (hok : ∀ p t, OTAEvent.onProgress p t ∈ i.otaEvents → 100 ≤ t % U32) :
    ∃ a1 fx, loop i a = some (a1, fx) ∧ a1.otaManager.isUpdating = false := by
  have hu' : a.otaManager.updating = false := hu
  have ht : ∃ a1 fx, loop i a = some (a1, fx) := by
    unfold loop
    dsimp only
    by_cases hs : i.statusOta = true
    · obtain ⟨o1, fx, hh⟩ := handle_total i.otaEvents a.otaManager hok
      simp only [hs, if_true, hh]
      exact ⟨_, _, rfl⟩
    · simp only [hs]
      exact ⟨_, _, rfl⟩
  obtain ⟨a1, fx, hl⟩ := ht
  refine ⟨a1, fx, hl, ?_⟩
  show a1.otaManager.updating = false
  rw [loop_updating i a a1 fx hl, hu']
  by_cases hs : i.statusOta = true
  · rw [if_pos hs]; exact gateAfter_no_start _ hns
  · rw [if_neg hs]; rfl

/-- C12: with WiFi connected at both uplink checks and no update in progress
throughout (the gate is open and no `onStart` is delivered), two consecutive
runs of `loop()` at clock values `now1`, `now2` with
`now1 - lastDataSend >= DATA_SEND_INTERVAL` and `now2 - now1 < DATA_SEND_INTERVAL`
(unsigned 32-bit) both return; the first executes `sendExampleData` and sets
`lastDataSend` to `now1`, the second does not send and leaves it. -/
theorem uplink_fires_once_per_interval (a : App) (i1 i2 : TickInput)
    (hu : a.otaManager.isUpdating = false)
    (hns : ∀ c, OTAEvent.onStart c ∉ i1.otaEvents ++ i2.otaEvents)
    (hok : ∀ p t, OTAEvent.onProgress p t ∈ i1.otaEvents ++ i2.otaEvents → 100 ≤ t % U32)
    (hc1 : i1.statusSend = true) (hc2 : i2.statusSend = true)
    (hdue : DATA_SEND_INTERVAL ≤ usub i1.millisSend a.lastDataSend)
    (hsoon : usub i2.millisSend i1.millisSend < DATA_SEND_INTERVAL) :
    ∃ a1 fx1 a2 fx2, loop i1 a = some (a1, fx1) ∧ loop i2 a1 = some (a2, fx2) ∧
      Effect.sendExampleData ∈ fx1 ∧ a1.lastDataSend = i1.millisSend % U32 ∧
      Effect.sendExampleData ∉ fx2 ∧ a2.lastDataSend = a1.lastDataSend := by
  obtain ⟨a1, fx1, hl1, hu1⟩ := loop_quiet i1 a hu
    (fun c hc => hns c (List.mem_append_left _ hc))
    (fun p t hm => hok p t (List.mem_append_left _ hm))
  obtain ⟨a2, fx2, hl2, hu2⟩ := loop_quiet i2 a1 hu1
    (fun c hc => hns c (List.mem_append_right _ hc))
    (fun p t hm => hok p t (List.mem_append_right _ hm))
  obtain ⟨s1, d1⟩ := loop_send_iff i1 a a1 fx1 hl1
  obtain ⟨s2, d2⟩ := loop_send_iff i2 a1 a2 fx2 hl2
  rw [hu1, hc1] at s1 d1
  rw [hu2, hc2] at s2 d2
  have e1 : uplinkCheck true false i1.millisSend a.lastDataSend =
      (i1.millisSend % U32, [Effect.sendExampleData]) := by
    simp [uplinkCheck, usub_mod_left, hdue]
  rw [e1] at s1 d1
  have hlast : a1.lastDataSend = i1.millisSend % U32 := d1
  have e2 : uplinkCheck true false i2.millisSend a1.lastDataSend = (a1.lastDataSend, []) := by
    have : ¬ DATA_SEND_INTERVAL ≤ usub i2.millisSend a1.lastDataSend := by
      rw [hlast, usub_mod_right]
      exact Nat.not_le.mpr hsoon
    simp [uplinkCheck, usub_mod_left, this]
  rw [e2] at s2 d2
  refine ⟨a1, fx1, a2, fx2, hl1, hl2, s1.mpr (by simp), hlast, ?_, d2⟩
  intro hm
  have := s2.mp hm
  simp at this

/-- Witness of C12: a first run 60000 ms after start sends, a run 59999 ms
later does not. -/
theorem uplink_fires_once_per_interval_witness :
    (App.new.otaManager.isUpdating = false ∧
      tickFirstDue.statusSend = true ∧ tickTooSoon.statusSend = true ∧
      DATA_SEND_INTERVAL ≤ usub tickFirstDue.millisSend App.new.lastDataSend ∧
      usub tickTooSoon.millisSend tickFirstDue.millisSend < DATA_SEND_INTERVAL) ∧
    loop tickFirstDue App.new = some (appSentAt60000, [ .sendExampleData, .delay 10 ]) ∧
    loop tickTooSoon appSentAt60000 = some (appSentAt60000, [ .delay 10 ]) ∧
    ∃ a1 fx1 a2 fx2, loop tickFirstDue App.new = some (a1, fx1) ∧
      loop tickTooSoon a1 = some (a2, fx2) ∧
      Effect.sendExampleData ∈ fx1 ∧ a1.lastDataSend = tickFirstDue.millisSend % U32 ∧
      Effect.sendExampleData ∉ fx2 ∧ a2.lastDataSend = a1.lastDataSend :=
  ⟨⟨rfl, rfl, rfl, by decide, by decide⟩, by rfl, by rfl,
    uplink_fires_once_per_interval App.new tickFirstDue tickTooSoon rfl
      (by intro c h; simp [tickFirstDue, tickTooSoon] at h)
      (by intro p t h; simp [tickFirstDue, tickTooSoon] at h)
      rfl rfl (by decide) (by decide)⟩

theorem write_mounted_writable {Bytes : Type} (fs : Spiffs Bytes) (path : String)
    (content : Bytes) (hm : fs.mounted = true) (hw : fs.writable = true) :
    fs.write path content = some (fs.withFile path content) := by
  simp [Spiffs.write, Spiffs.withFile, hm, hw]

theorem configDocument_strings (ssid password : String) :
    configDocument (some ssid) (some password) =
      [("ssid", JsonValue.str ssid), ("password", JsonValue.str password)] := by
  rfl

/-- C13: a POST whose ssid parameter is absent or empty is answered with
400 `SSID is required`; the store and the application state are as before and
nothing is done, whatever callback is registered (it is not invoked). For a
non-empty ssid, with a mounted writable store and a registered callback, the
handler writes to `CONFIG_FILE` the serialized document whose members are
`ssid` and `password` with the request's values (an absent password as `""`),
then invokes the callback with exactly those values on that store, and
answers 200. -/
theorem handleSaveConfig_requires_ssid {Bytes : Type} (lib : JsonLibrary Bytes)
    (w : WebServerManager Bytes) (request : PostRequest) (a : App) (fs : Spiffs Bytes) :
    ((request.hasParam "ssid" = false ∨ (request.getParam "ssid").length = 0) →
      w.handleSaveConfig lib request a fs =
        ({ code := 400, contentType := "application/json",
           content := "\x7b\"error\":\"SSID is required\"\x7d" }, a, fs, [])) ∧
    ((request.hasParam "ssid" = true ∧ ¬ (request.getParam "ssid").length = 0) →
      fs.mounted = true → fs.writable = true →
      ∀ callback, w.configUpdateCallback = some callback →
        (fs.withFile CONFIG_FILE (lib.serializeJson
          [("ssid", JsonValue.str (request.getParam "ssid")),
            ("password", JsonValue.str request.password)])).files CONFIG_FILE =
          some (lib.serializeJson
            [("ssid", JsonValue.str (request.getParam "ssid")),
              ("password", JsonValue.str request.password)]) ∧
        w.handleSaveConfig lib request a fs =
          ({ code := 200, contentType := "application/json",
             content :=
               "\x7b\"success\":true,\"message\":\"Configuration saved. Device will reconnect.\"\x7d" },
            (callback (some (request.getParam "ssid")) (some request.password) a
              (fs.withFile CONFIG_FILE (lib.serializeJson
                [("ssid", JsonValue.str (request.getParam "ssid")),
                  ("password", JsonValue.str request.password)]))).1,
            (callback (some (request.getParam "ssid")) (some request.password) a
              (fs.withFile CONFIG_FILE (lib.serializeJson
                [("ssid", JsonValue.str (request.getParam "ssid")),
                  ("password", JsonValue.str request.password)]))).2.1,
            [ .log .info "Configuration saved" ] ++
              (callback (some (request.getParam "ssid")) (some request.password) a
                (fs.withFile CONFIG_FILE (lib.serializeJson
                  [("ssid", JsonValue.str (request.getParam "ssid")),
                    ("password", JsonValue.str request.password)]))).2.2)) := by
  constructor
  · intro h
    have hs : request.ssid.length = 0 := by
      unfold PostRequest.ssid
      rcases h with h | h
      · rw [h]; rfl
      · split
        · exact h
        · rfl
    simp [WebServerManager.handleSaveConfig, hs]
  · rintro ⟨h1, h2⟩ hm hw callback hcb
    have hs : request.ssid = request.getParam "ssid" := by
      unfold PostRequest.ssid
      rw [h1]; rfl
    refine ⟨by simp [Spiffs.withFile], ?_⟩
    unfold WebServerManager.handleSaveConfig
    simp only [hs, h2, if_false, configDocument_strings, write_mounted_writable _ _ _ hm hw,
      hcb]

/-- Witness of C13: with the callback of `setup()` registered, a POST without
ssid is refused and changes nothing; a POST of `Lab` / `pw123456` leaves the
document with exactly these two members in the file and is handed to the
callback, which connects with exactly these values. -/
theorem handleSaveConfig_requires_ssid_witness :
    (postNoSsid.hasParam "ssid" = false ∨ (postNoSsid.getParam "ssid").length = 0) ∧
    serverAfterSetup.handleSaveConfig plainLibrary postNoSsid App.new emptyStore =
      ({ code := 400, contentType := "application/json",
         content := "\x7b\"error\":\"SSID is required\"\x7d" }, App.new, emptyStore, []) ∧
    (postLab.hasParam "ssid" = true ∧ ¬ (postLab.getParam "ssid").length = 0) ∧
    emptyStore.mounted = true ∧ emptyStore.writable = true ∧
    serverAfterSetup.configUpdateCallback =
      some (setupConfigCallback plainLibrary (fun _ => true)) ∧
    (serverAfterSetup.handleSaveConfig plainLibrary postLab App.new emptyStore).1.code = 200 ∧
    (serverAfterSetup.handleSaveConfig plainLibrary postLab App.new emptyStore).2.2.1.files
        CONFIG_FILE =
      some [("ssid", JsonValue.str "Lab"), ("password", JsonValue.str "pw123456")] ∧
    (serverAfterSetup.handleSaveConfig plainLibrary postLab App.new emptyStore).2.1.wifiManager
        = { ssid := "Lab", password := "pw123456", lastReconnectAttempt := 0, retryCount := 0 } ∧
    Effect.net (.begin "Lab" (some "pw123456")) ∈
      (serverAfterSetup.handleSaveConfig plainLibrary postLab App.new emptyStore).2.2.2 :=
  have hno : postNoSsid.hasParam "ssid" = false ∨ (postNoSsid.getParam "ssid").length = 0 :=
    Or.inl (by decide)
  have hlab : postLab.hasParam "ssid" = true ∧ ¬ (postLab.getParam "ssid").length = 0 :=
    ⟨by decide, by decide⟩
  have h2 := ((handleSaveConfig_requires_ssid plainLibrary serverAfterSetup postLab App.new
    emptyStore).2 hlab rfl rfl (setupConfigCallback plainLibrary (fun _ => true)) rfl).2
  ⟨hno,
    (handleSaveConfig_requires_ssid plainLibrary serverAfterSetup postNoSsid App.new
      emptyStore).1 hno,
    hlab, rfl, rfl, rfl, by rw [h2], by rw [h2]; rfl, by rw [h2]; rfl, by rw [h2]; decide⟩

end Esp32
